import Mathlib

/-!
Verification development for the Arabic neighborhood-recommendation chatbot.

The Python sources are shallowly embedded: strings are lists of characters,
pandas data frames are lists of rows (association lists from column names to
optional cell strings), exceptions are the error side of Except, and the two
nondeterministic collaborators (the generative similarity service and the
random sampler) are explicit parameters.  Python regular expressions are
embedded through a small backtracking matcher (Pat below) whose semantics
follows the re module on the constructs the sources use: ordered alternation,
greedy and lazy quantifiers over character classes, one capturing group,
anchors, and leftmost search.
-/

set_option maxRecDepth 20000

/-! ## Basic character and string helpers (Python semantics) -/

/-- Python whitespace for str.strip, str.split and the regex class of
backslash-s (the ASCII part; the sources only ever contain space and
newline). -/
def isPySpace (c : Char) : Bool :=
  c = ' ' || c = '\t' || c = '\n' || c = '\r' || c = Char.ofNat 11 || c = Char.ofNat 12

/-- Digits accepted by the regex class of backslash-d: ASCII and
Arabic-Indic. -/
def isPyDigit (c : Char) : Bool :=
  ('0' ≤ c && c ≤ '9') || (0x660 ≤ c.toNat && c.toNat ≤ 0x669)

/-- Word characters for the regex class of backslash-w, restricted to the
ASCII range plus the Arabic letter and digit blocks actually occurring in the
sources. -/
def isPyWord (c : Char) : Bool :=
  ('a' ≤ c && c ≤ 'z') || ('A' ≤ c && c ≤ 'Z') || ('0' ≤ c && c ≤ '9') || c = '_'
    || (0x620 ≤ c.toNat && c.toNat ≤ 0x64A) || isPyDigit c
    || (0x671 ≤ c.toNat && c.toNat ≤ 0x6D3)

/-- The class [backslash-u0600-backslash-u06FF backslash-s] used by all the
Arabic capture groups in the sources. -/
def isArabicOrSpace (c : Char) : Bool :=
  (0x600 ≤ c.toNat && c.toNat ≤ 0x6FF) || isPySpace c

/-- Any character except newline: the regex dot. -/
def isNotNewline (c : Char) : Bool := c ≠ '\n'

/-- ASCII lowercasing, the effective part of str.lower on this data (Arabic
characters are unaffected by lower). -/
def asciiLower (c : Char) : Char :=
  if 'A' ≤ c && c ≤ 'Z' then Char.ofNat (c.toNat + 32) else c

def lowerL (s : List Char) : List Char := s.map asciiLower

/-- Python str.strip (both ends, whitespace). -/
def pyStrip (s : List Char) : List Char :=
  ((s.dropWhile isPySpace).reverse.dropWhile isPySpace).reverse

/-- Helper for pySplitWs: walk the string with the (reversed) current word. -/
def pySplitWsAux : List Char → List Char → List (List Char)
  | [], cur => if cur.isEmpty then [] else [cur.reverse]
  | c :: t, cur =>
    if isPySpace c then
      if cur.isEmpty then pySplitWsAux t [] else cur.reverse :: pySplitWsAux t []
    else pySplitWsAux t (c :: cur)

/-- Python str.split() : split on whitespace runs, no empty pieces. -/
def pySplitWs (s : List Char) : List (List Char) := pySplitWsAux s []

/-- Python str.split with a one-character separator (keeps empty pieces). -/
def pySplitOn (sep : Char) : List Char → List (List Char)
  | [] => [[]]
  | c :: t =>
    if c = sep then [] :: pySplitOn sep t
    else
      match pySplitOn sep t with
      | [] => [[c]]
      | w :: ws => (c :: w) :: ws

/-- Substring containment (the Python in operator on strings). -/
def isSubL (needle hay : List Char) : Bool :=
  match hay with
  | [] => needle.isEmpty
  | _ :: t => needle.isPrefixOf hay || isSubL needle t

/-- Case-insensitive containment, the effect of pandas str.contains with
case set to False on this data. -/
def containsCI (hay needle : List Char) : Bool :=
  isSubL (lowerL needle) (lowerL hay)

/-- Fuel-driven worker for pyReplace; every step consumes at least one
character, so fuel equal to the length of the string suffices. -/
def pyReplaceF (old new : List Char) : Nat → List Char → List Char
  | 0, s => s
  | _, [] => []
  | fuel + 1, c :: t =>
    if old.isPrefixOf (c :: t) ∧ old ≠ [] then
      new ++ pyReplaceF old new fuel ((c :: t).drop old.length)
    else
      c :: pyReplaceF old new fuel t

/-- Python str.replace: replace every occurrence of old (nonempty in all
call sites) by new, scanning left to right. -/
def pyReplace (old new s : List Char) : List Char := pyReplaceF old new s.length s

/-- Parse a list of decimal digit characters (ASCII or Arabic-Indic) as a
natural number. -/
def digitsToNat (l : List Char) : Nat :=
  l.foldl (fun acc c =>
    acc * 10 + (if 0x660 ≤ c.toNat && c.toNat ≤ 0x669 then c.toNat - 0x660
                else c.toNat - '0'.toNat)) 0

/-! ## A small backtracking regex matcher

Pat mirrors exactly the constructs occurring in the Python sources.  Ordered
alternation, greedy (starG, plusG) and lazy (plusL) quantification over
one-character classes, an optional greedy group, a single capturing group and
the end anchor.  The beginning anchor is handled by the anchored flag of
research.  Matching uses continuations, which gives the same backtracking
behaviour as the re module on these constructs. -/

inductive Pat where
  | eps
  | lit (c : Char)
  | cls (p : Char → Bool)
  | seq (a b : Pat)
  | alt (a b : Pat)
  | starG (p : Char → Bool)
  | plusG (p : Char → Bool)
  | plusL (p : Char → Bool)
  | opt (a : Pat)
  | grp (a : Pat)
  | eos

/-- Match result: input remaining after the match, and the text of the
capturing group if one was bound. -/
abbrev MRes := List Char × Option (List Char)

/-- Greedy closure of a character class: consume as much as possible, then
give back characters one at a time while the continuation fails. -/
def greedyCls (p : Char → Bool) :
    List Char → (List Char → Option (List Char) → Option MRes) →
    Option (List Char) → Option MRes
  | s, k, cap =>
    match s with
    | [] => k [] cap
    | c :: t =>
      if p c then (greedyCls p t k cap).orElse (fun _ => k s cap)
      else k s cap

/-- Lazy closure of a character class: try the continuation first, consume
one more character only on failure. -/
def lazyCls (p : Char → Bool) :
    List Char → (List Char → Option (List Char) → Option MRes) →
    Option (List Char) → Option MRes
  | s, k, cap =>
    (k s cap).orElse (fun _ =>
      match s with
      | [] => none
      | c :: t => if p c then lazyCls p t k cap else none)

/-- The continuation-passing matcher.  The continuation receives the
remaining input and the current capture. -/
def matchPat : Pat → List Char → (List Char → Option (List Char) → Option MRes) →
    Option (List Char) → Option MRes
  | .eps, s, k, cap => k s cap
  | .lit c, s, k, cap =>
    match s with
    | [] => none
    | x :: t => if x = c then k t cap else none
  | .cls p, s, k, cap =>
    match s with
    | [] => none
    | x :: t => if p x then k t cap else none
  | .seq a b, s, k, cap => matchPat a s (fun s1 c1 => matchPat b s1 k c1) cap
  | .alt a b, s, k, cap => (matchPat a s k cap).orElse (fun _ => matchPat b s k cap)
  | .starG p, s, k, cap => greedyCls p s k cap
  | .plusG p, s, k, cap =>
    match s with
    | [] => none
    | x :: t => if p x then greedyCls p t k cap else none
  | .plusL p, s, k, cap =>
    match s with
    | [] => none
    | x :: t => if p x then lazyCls p t k cap else none
  | .opt a, s, k, cap => (matchPat a s k cap).orElse (fun _ => k s cap)
  | .grp a, s, k, cap =>
    matchPat a s (fun s1 _ => k s1 (some (s.take (s.length - s1.length)))) cap
  | .eos, s, k, cap =>
    match s with
    | [] => k [] cap
    | _ => none

/-- Try to match at the current position; on failure move one character to
the right (the scan of re.search).  Returns the match offset and result. -/
def searchStep (p : Pat) : List Char → Option (Nat × MRes)
  | [] =>
    match matchPat p [] (fun rest cap => some (rest, cap)) none with
    | some r => some (0, r)
    | none => none
  | c :: t =>
    match matchPat p (c :: t) (fun rest cap => some (rest, cap)) none with
    | some r => some (0, r)
    | none => (searchStep p t).map (fun ir => (ir.1 + 1, ir.2))

/-- re.search: anchored patterns (leading caret) are only tried at the
start. -/
def research (anchored : Bool) (p : Pat) (s : List Char) : Option (Nat × MRes) :=
  if anchored then
    (matchPat p s (fun rest cap => some (rest, cap)) none).map (fun r => (0, r))
  else searchStep p s

/-- Boolean match test. -/
def reTest (anchored : Bool) (p : Pat) (s : List Char) : Bool :=
  (research anchored p s).isSome

/-- The text of group 1 of the leftmost match, if any. -/
def reGroup1 (anchored : Bool) (p : Pat) (s : List Char) : Option (List Char) :=
  match research anchored p s with
  | some (_, _, cap) => cap
  | none => none

/-- Group 0 and group 1 of the leftmost match. -/
def reGroups (anchored : Bool) (p : Pat) (s : List Char) :
    Option (List Char × Option (List Char)) :=
  match research anchored p s with
  | some (idx, rest, cap) =>
    some ((s.drop idx).take (s.length - idx - rest.length), cap)
  | none => none

/-- re.sub with empty replacement for the patterns of the sources (each can
match at most once: they are either anchored at the start or run to the end
of the string). -/
def resubDel (anchored : Bool) (p : Pat) (s : List Char) : List Char :=
  match research anchored p s with
  | some (idx, rest, _) => s.take idx ++ rest
  | none => s

/-- Literal string pattern. -/
def pstr (s : String) : Pat :=
  s.data.foldr (fun c acc => Pat.seq (Pat.lit c) acc) Pat.eps

/-- Never-matching pattern, the unit of ordered alternation. -/
def pfail : Pat := Pat.cls (fun _ => false)

/-- Ordered alternation of a list of patterns. -/
def paltL (ps : List Pat) : Pat := ps.foldr Pat.alt pfail

/-- Ordered alternation of literal strings. -/
def paltS (ss : List String) : Pat := paltL (ss.map pstr)

/-- Sequence of a list of patterns. -/
def pcat (ps : List Pat) : Pat := ps.foldr Pat.seq Pat.eps

/-- The class matching anything except a dot, an Arabic comma or a comma:
the capture class of the proximity patterns. -/
def isNotStopMark (c : Char) : Bool := !(c = '.' || c = '،' || c = ',')

/-- The class [,0-9] of the salary capture in _handle_budget_query. -/
def isCommaOrDigit (c : Char) : Bool := c = ',' || isPyDigit c

/-- Test a message against a list of (anchored, pattern) pairs, the shape of
the any(re.search(p, msg) for p in patterns) idiom. -/
def reAnyTest (ps : List (Bool × Pat)) (s : List Char) : Bool :=
  ps.any (fun bp => reTest bp.1 bp.2 s)

/-! ## Literal data extracted from the Python sources -/

/-- recommendation.py common_words: frequent words excluded from neighborhood names. -/
def commonWords : List String := ["فيه", "فيها", "به", "بها", "هذا", "هذه", "ذلك", "تلك", "من", "إلى", "على", "في", "عن", "مع", "حول", "قرب", "بجانب"]

/-- recommendation.py explicit_patterns (group 1 captured). -/
def explicitPatterns : List (Bool × Pat) := [
  (false,
   pcat [pstr "اقترح ",
    paltS ["لي", "علي"],
    pstr " ",
    paltS ["حي", "منطقة"],
    pstr " ",
    Pat.grp (Pat.plusL isArabicOrSpace),
    paltL [pstr ".", Pat.eos, Pat.cls isPySpace]]),
  (false,
   pcat [pstr "أقترح ",
    paltS ["لي", "علي"],
    pstr " ",
    paltS ["حي", "منطقة"],
    pstr " ",
    Pat.grp (Pat.plusL isArabicOrSpace),
    paltL [pstr ".", Pat.eos, Pat.cls isPySpace]]),
  (false,
   pcat [pstr "اقتراح ",
    paltS ["حي", "منطقة"],
    pstr " ",
    Pat.grp (Pat.plusL isArabicOrSpace),
    paltL [pstr ".", Pat.eos, Pat.cls isPySpace]]),
  (false,
   pcat [paltS ["أبي", "أبغى", "أريد", "ابي", "ابغى", "اريد"],
    pstr " ",
    paltS ["حي", "منطقة"],
    pstr " ",
    Pat.grp (Pat.plusL isArabicOrSpace),
    paltL [pstr ".", Pat.eos, Pat.cls isPySpace]]),
  (false,
   pcat [pstr "معلومات عن ",
    paltS ["حي", "منطقة"],
    pstr " ",
    Pat.grp (Pat.plusL isArabicOrSpace),
    paltL [pstr ".", Pat.eos, Pat.cls isPySpace]]),
  (false,
   pcat [paltS ["ساكن", "أسكن", "اسكن"],
    pstr " في ",
    paltS ["حي", "منطقة"],
    pstr " ",
    Pat.grp (Pat.plusL isArabicOrSpace),
    paltL [pstr ".", Pat.eos, Pat.cls isPySpace]]),
  (false,
   pcat [pstr "أفضل ",
    paltS ["حي", "منطقة"],
    pstr " ",
    Pat.grp (Pat.plusL isArabicOrSpace),
    paltL [pstr ".", Pat.eos, Pat.cls isPySpace]])
]

/-- recommendation.py last_line_patterns (group 1 captured). -/
def lastLinePatterns : List (Bool × Pat) := [
  (false,
   pcat [paltS ["حي", "منطقة"],
    pstr " ",
    Pat.grp (Pat.plusL isArabicOrSpace),
    paltL [pstr ".", Pat.eos, Pat.cls isPySpace]]),
  (true,
   pcat [Pat.grp (Pat.plusL isArabicOrSpace),
    Pat.eos])
]

/-- recommendation.py special_patterns (match only). -/
def specialPatterns : List (Bool × Pat) := [
  (false,
   pcat [pstr "اقترح ",
    paltS ["لي", "علي"],
    pstr " حي ",
    paltS ["فيه", "فيها", "به", "بها"],
    pstr " ",
    Pat.plusG isArabicOrSpace]),
  (false,
   pcat [pstr "أقترح ",
    paltS ["لي", "علي"],
    pstr " حي ",
    paltS ["فيه", "فيها", "به", "بها"],
    pstr " ",
    Pat.plusG isArabicOrSpace]),
  (false,
   pcat [pstr "أريد حي ",
    paltS ["فيه", "فيها", "به", "بها"],
    pstr " ",
    Pat.plusG isArabicOrSpace]),
  (false,
   pcat [pstr "اريد حي ",
    paltS ["فيه", "فيها", "به", "بها"],
    pstr " ",
    Pat.plusG isArabicOrSpace]),
  (false,
   pcat [pstr "ابحث عن حي ",
    paltS ["فيه", "فيها", "به", "بها"],
    pstr " ",
    Pat.plusG isArabicOrSpace])
]

/-- recommendation.py housing_patterns in extract_neighborhood_from_message (group 1). -/
def housingPatterns : List (Bool × Pat) := [
  (false,
   pcat [paltS ["أسكن", "اسكن", "أعيش", "اعيش", "مقيم"],
    pstr " في ",
    Pat.opt (paltS ["حي", "منطقة"]),
    pstr " ",
    Pat.grp (Pat.plusL isArabicOrSpace),
    paltL [pstr ".", Pat.cls isPySpace, Pat.eos]]),
  (false,
   pcat [paltS ["أفضل", "افضل", "ارغب", "أرغب"],
    pstr " ",
    paltS ["السكن", "العيش"],
    pstr " في ",
    Pat.opt (paltS ["حي", "منطقة"]),
    pstr " ",
    Pat.grp (Pat.plusL isArabicOrSpace),
    paltL [pstr ".", Pat.cls isPySpace, Pat.eos]]),
  (false,
   pcat [paltS ["أبحث", "ابحث"],
    pstr " عن عقار في ",
    Pat.opt (paltS ["حي", "منطقة"]),
    pstr " ",
    Pat.grp (Pat.plusL isArabicOrSpace),
    paltL [pstr ".", Pat.cls isPySpace, Pat.eos]]),
  (false,
   pcat [paltS ["حي", "منطقة"],
    pstr " ",
    Pat.grp (Pat.plusL isArabicOrSpace),
    pstr " ",
    paltS ["للسكن", "مناسب", "مناسبة", "جيدة", "جيد"],
    paltL [pstr ".", Pat.cls isPySpace, Pat.eos]])
]

/-- recommendation.py work_patterns in extract_neighborhood_from_message (group 1). -/
def workPatterns : List (Bool × Pat) := [
  (false,
   pcat [paltS ["مكان عملي", "أعمل", "اعمل", "وظيفتي"],
    pstr " في ",
    Pat.opt (paltS ["حي", "منطقة"]),
    pstr " ",
    Pat.grp (Pat.plusL isArabicOrSpace),
    paltL [pstr ".", Pat.cls isPySpace, Pat.eos]]),
  (false,
   pcat [paltS ["مقر العمل", "مكتبي", "شركتي"],
    pstr " في ",
    Pat.opt (paltS ["حي", "منطقة"]),
    pstr " ",
    Pat.grp (Pat.plusL isArabicOrSpace),
    paltL [pstr ".", Pat.cls isPySpace, Pat.eos]])
]

/-- query_processor.py facility_keywords. -/
def qpFacilityKeywords : List (String × List String) := [
  ("مدرسة", ["مدرسة", "مدارس", "روضة", "روضات", "كلية", "كليات", "معهد", "معاهد", "جامعة", "جامعات", "ابتدائية", "متوسطة", "ثانوية", "تعليم", "دراسة", "أكاديمية"]),
  ("مستشفى", ["مستشفى", "مستشفيات", "مركز طبي", "مراكز طبية", "عيادة", "عيادات", "مستوصف", "مستوصفات", "مجمع طبي", "مجمعات طبية", "صحة", "طبي", "علاج", "طوارئ", "مختبر", "صيدلية"]),
  ("حديقة", ["حديقة", "حدائق", "منتزه", "منتزهات", "متنزه", "متنزهات", "ملعب", "ملاعب", "ساحة", "ساحات", "مساحة خضراء", "مساحات خضراء", "بارك", "حدائق عامة"]),
  ("سوبرماركت", ["سوبرماركت", "هايبر", "هايبرماركت", "ماركت", "سوق", "أسواق", "بقالة", "محل", "متجر", "دكان", "تموينات", "جمعية", "مخبز", "مخابز", "بقالات", "محلات"]),
  ("مول", ["مول", "مولات", "مركز تسوق", "مراكز تسوق", "مجمع تجاري", "مجمعات تجارية", "بلازا", "سوق تجاري", "أسواق تجارية", "سنتر", "مجمع", "معرض", "معارض"])
]

/-- query_processor.py proximity_keywords. -/
def proximityKeywords : List String := ["قريب من", "قريبة من", "بالقرب من", "جنب", "بجانب", "جوار", "بجوار", "حول"]

/-- query_processor.py budget_patterns in _extract_budget (group 1 captured). -/
def qpBudgetPatterns : List (Bool × Pat) := [
  (false,
   pcat [paltS ["ميزانية", "الميزانية", "ميزانيتي", "ميزانيه", "بحدود", "بميزانية"],
    pstr " ",
    Pat.opt (paltS ["قدرها", "مقدارها", "تبلغ", "حوالي", "تقريبا", "تقريباً"]),
    pstr " ",
    Pat.grp (pcat [Pat.plusG isPyDigit,
    Pat.opt (pcat [pstr ",",
    Pat.plusG isPyDigit]),
    Pat.opt (pcat [pstr ".",
    Pat.plusG isPyDigit])]),
    pstr " ",
    paltL [pstr "ريال", pstr "ألف", pstr "الف", pstr "مليون", pstr "ريال سعودي", pcat [pstr "ر",
    Pat.cls isNotNewline,
    pstr "س"]]]),
  (false,
   pcat [Pat.grp (pcat [Pat.plusG isPyDigit,
    Pat.opt (pcat [pstr ",",
    Pat.plusG isPyDigit]),
    Pat.opt (pcat [pstr ".",
    Pat.plusG isPyDigit])]),
    pstr " ",
    paltL [pstr "ريال", pstr "ألف", pstr "الف", pstr "مليون", pstr "ريال سعودي", pcat [pstr "ر",
    Pat.cls isNotNewline,
    pstr "س"]]]),
  (false,
   pcat [Pat.grp (pcat [Pat.plusG isPyDigit,
    Pat.opt (pcat [pstr ",",
    Pat.plusG isPyDigit]),
    Pat.opt (pcat [pstr ".",
    Pat.plusG isPyDigit])]),
    pstr " ",
    paltS ["ميزانية", "ميزانيتي"]]),
  (false,
   pcat [paltS ["أقصى", "اقصى", "الأقصى", "الاقصى"],
    pstr " ",
    paltS ["سعر", "حد", "ميزانية"],
    pstr " ",
    Pat.opt (paltS ["هو", "هي"]),
    pstr " ",
    Pat.grp (pcat [Pat.plusG isPyDigit,
    Pat.opt (pcat [pstr ",",
    Pat.plusG isPyDigit]),
    Pat.opt (pcat [pstr ".",
    Pat.plusG isPyDigit])])])
]

/-- chatbot.py best_worst_patterns in _handle_best_worst_neighborhood_query. -/
def bestWorstPatterns : List (Bool × Pat) := [
  (true,
   pcat [paltS ["ما", "ايش", "وش", "وين"],
    pstr " ",
    paltS ["هو ", ""],
    paltS ["افضل", "أفضل"],
    pstr " ",
    paltS ["حي", "منطقة", "الاحياء", "الأحياء"],
    paltL [pstr "?", pstr "؟", Pat.eos, Pat.cls isPySpace]]),
  (true,
   pcat [paltS ["ما", "ايش", "وش", "وين"],
    pstr " ",
    paltS ["هي ", ""],
    paltS ["افضل", "أفضل"],
    pstr " ",
    paltS ["احياء", "أحياء", "المناطق", "مناطق"],
    paltL [pstr "?", pstr "؟", Pat.eos, Pat.cls isPySpace]]),
  (true,
   pcat [paltS ["افضل", "أفضل"],
    pstr " ",
    paltS ["حي", "منطقة"],
    paltL [pstr "?", pstr "؟", Pat.eos, Pat.cls isPySpace]]),
  (true,
   pcat [paltS ["احسن", "أحسن"],
    pstr " ",
    paltS ["حي", "منطقة"],
    paltL [pstr "?", pstr "؟", Pat.eos, Pat.cls isPySpace]]),
  (true,
   pcat [paltS ["ما", "ايش", "وش", "وين"],
    pstr " ",
    paltS ["هو ", ""],
    paltS ["اسوء", "أسوأ", "اسوا", "أسوا"],
    pstr " ",
    paltS ["حي", "منطقة", "الاحياء", "الأحياء"],
    paltL [pstr "?", pstr "؟", Pat.eos, Pat.cls isPySpace]]),
  (true,
   pcat [paltS ["ما", "ايش", "وش", "وين"],
    pstr " ",
    paltS ["هي ", ""],
    paltS ["اسوء", "أسوأ", "اسوا", "أسوا"],
    pstr " ",
    paltS ["احياء", "أحياء", "المناطق", "مناطق"],
    paltL [pstr "?", pstr "؟", Pat.eos, Pat.cls isPySpace]]),
  (true,
   pcat [paltS ["اسوء", "أسوأ", "اسوا", "أسوا"],
    pstr " ",
    paltS ["حي", "منطقة"],
    paltL [pstr "?", pstr "؟", Pat.eos, Pat.cls isPySpace]]),
  (true,
   pcat [paltS ["اردء", "أردأ"],
    pstr " ",
    paltS ["حي", "منطقة"],
    paltL [pstr "?", pstr "؟", Pat.eos, Pat.cls isPySpace]]),
  (true,
   pcat [pstr "اقترح ",
    paltS ["لي", "علي", ""],
    pstr " ",
    paltS ["افضل", "أفضل"],
    pstr " ",
    paltS ["حي", "منطقة", "الاحياء", "الأحياء"],
    paltL [pstr "?", pstr "؟", Pat.eos, Pat.cls isPySpace]]),
  (true,
   pcat [pstr "أقترح ",
    paltS ["لي", "علي", ""],
    pstr " ",
    paltS ["افضل", "أفضل"],
    pstr " ",
    paltS ["حي", "منطقة", "الاحياء", "الأحياء"],
    paltL [pstr "?", pstr "؟", Pat.eos, Pat.cls isPySpace]]),
  (true,
   pcat [pstr "اخبرني عن ",
    paltS ["افضل", "أفضل"],
    pstr " ",
    paltS ["حي", "منطقة", "الاحياء", "الأحياء"],
    paltL [pstr "?", pstr "؟", Pat.eos, Pat.cls isPySpace]]),
  (true,
   pcat [pstr "أخبرني عن ",
    paltS ["افضل", "أفضل"],
    pstr " ",
    paltS ["حي", "منطقة", "الاحياء", "الأحياء"],
    paltL [pstr "?", pstr "؟", Pat.eos, Pat.cls isPySpace]]),
  (true,
   pcat [pstr "وش افضل حي",
    paltL [pstr "?", pstr "؟", Pat.eos, Pat.cls isPySpace]]),
  (true,
   pcat [pstr "وش أفضل حي",
    paltL [pstr "?", pstr "؟", Pat.eos, Pat.cls isPySpace]]),
  (true,
   pcat [pstr "ابغى افضل حي",
    paltL [pstr "?", pstr "؟", Pat.eos, Pat.cls isPySpace]]),
  (true,
   pcat [pstr "أبغى أفضل حي",
    paltL [pstr "?", pstr "؟", Pat.eos, Pat.cls isPySpace]]),
  (true,
   pcat [pstr "ابي افضل حي",
    paltL [pstr "?", pstr "؟", Pat.eos, Pat.cls isPySpace]]),
  (true,
   pcat [pstr "أبي أفضل حي",
    paltL [pstr "?", pstr "؟", Pat.eos, Pat.cls isPySpace]])
]

/-- chatbot.py contextual_patterns (personal context). -/
def contextualPatterns : List (Bool × Pat) := [
  (false,
   pstr "اقترح لي حي بناء على"),
  (false,
   pstr "أقترح لي حي بناء على"),
  (false,
   pstr "اقترح لي افضل حي لي"),
  (false,
   pstr "أقترح لي أفضل حي لي"),
  (false,
   pstr "افضل حي لي"),
  (false,
   pstr "أفضل حي لي"),
  (false,
   pstr "افضل حي يناسبني"),
  (false,
   pstr "أفضل حي يناسبني"),
  (false,
   pstr "ماهو افضل حي لي"),
  (false,
   pstr "ما هو أفضل حي لي"),
  (false,
   pcat [pstr "انا عمري ",
    Pat.plusG isPyDigit,
    pstr " سنة"]),
  (false,
   pstr "عائلة لديها"),
  (false,
   pstr "ابحث عن افضل حي"),
  (false,
   pstr "أبحث عن أفضل حي")
]

/-- chatbot.py criteria_patterns (specific criteria). -/
def criteriaPatterns : List (Bool × Pat) := [
  (false,
   pcat [paltS ["افضل", "أفضل"],
    pstr " حي لل",
    Pat.plusG isPyWord]),
  (false,
   pcat [paltS ["افضل", "أفضل"],
    pstr " منطقة لل",
    Pat.plusG isPyWord]),
  (false,
   pcat [paltS ["افضل", "أفضل"],
    pstr " حي من ناحية ال",
    Pat.plusG isPyWord]),
  (false,
   pcat [paltS ["افضل", "أفضل"],
    pstr " حي من حيث ال",
    Pat.plusG isPyWord]),
  (false,
   pcat [paltS ["افضل", "أفضل"],
    pstr " الاحياء ",
    paltS ["من", "في", "ب", "ل"],
    Pat.plusG isPyWord]),
  (false,
   pcat [paltS ["افضل", "أفضل"],
    pstr " حي ",
    paltS ["قريب", "بالقرب"],
    pstr " من"]),
  (false,
   pcat [paltS ["افضل", "أفضل"],
    pstr " حي ",
    paltS ["فيه", "يوجد فيه", "به", "يوجد به"]]),
  (false,
   pcat [paltS ["افضل", "أفضل"],
    pstr " حي ",
    paltS ["بسعر", "بمتوسط سعر"]])
]

/-- chatbot.py short_response_keywords in _handle_short_response. -/
def shortResponseKeywords : List String := ["نعم", "المزيد", "اريد", "أريد", "أكمل", "تابع", "اكمل", "استمر", "موافق", "تمام", "اوكي", "اوك", "ok"]

/-- chatbot.py neutral response text of _handle_best_worst_neighborhood_query. -/
def neutralResponse : String :=
  "لا يوجد حي يمكن تصنيفه على أنه الأفضل أو الأسوأ بشكل عام، فاختيار الحي يعتمد بشكل كبير على تفضيلاتك واحتياجاتك الشخصية. كل حي يتمتع بمميزاته الخاصة التي قد تتناسب مع البعض ولا تتناسب مع الآخرين. قد تجد أن بعض الأحياء تتميز بالقرب من المدارس أو المرافق العامة، بينما قد تكون أحياء أخرى مثالية للعائلات التي تبحث عن بيئة هادئة. من المهم أن تأخذ في اعتبارك ما الذي تبحث عنه في الحي مثل الموقع، الخدمات، الأسعار، والأجواء العامة قبل اتخاذ قرارك."

/-- chatbot.py budget_patterns in _handle_budget_query (group 1 captured). -/
def cbBudgetPatterns : List (Bool × Pat) := [
  (false,
   pcat [pstr "ابحث عن حي مناسب لميزانيتي حيث ان راتبي ",
    Pat.grp (pcat [Pat.plusG isPyDigit,
    Pat.starG isCommaOrDigit])]),
  (false,
   pcat [pstr "حي مناسب لراتب ",
    Pat.grp (pcat [Pat.plusG isPyDigit,
    Pat.starG isCommaOrDigit])]),
  (false,
   pcat [pstr "حي يناسب ميزانية ",
    Pat.grp (pcat [Pat.plusG isPyDigit,
    Pat.starG isCommaOrDigit])]),
  (false,
   pcat [pstr "ابحث عن حي يناسب راتب ",
    Pat.grp (pcat [Pat.plusG isPyDigit,
    Pat.starG isCommaOrDigit])]),
  (false,
   pcat [pstr "اقترح حي لراتب ",
    Pat.grp (pcat [Pat.plusG isPyDigit,
    Pat.starG isCommaOrDigit])]),
  (false,
   pcat [pstr "راتبي ",
    Pat.grp (pcat [Pat.plusG isPyDigit,
    Pat.starG isCommaOrDigit])]),
  (false,
   pcat [pstr "دخلي ",
    Pat.grp (pcat [Pat.plusG isPyDigit,
    Pat.starG isCommaOrDigit]),
    pstr " ريال"]),
  (false,
   pcat [pstr "ميزانيتي ",
    Pat.grp (pcat [Pat.plusG isPyDigit,
    Pat.starG isCommaOrDigit])])
]

/-- search.py question_patterns in _clean_search_query. -/
def questionPatterns : List (Bool × Pat) := [
  (true,
   pcat [pstr "اين ",
    paltS ["توجد", "يوجد", "تقع", "يقع", "هي", "هو"],
    pstr " "]),
  (true,
   pcat [pstr "أين ",
    paltS ["توجد", "يوجد", "تقع", "يقع", "هي", "هو"],
    pstr " "]),
  (true,
   pcat [pstr "ما ",
    paltS ["هي", "هو"],
    pstr " "]),
  (true,
   pcat [pstr "كيف ",
    paltS ["اجد", "أجد"],
    pstr " "]),
  (true,
   pcat [paltS ["اين", "أين"],
    pstr " ",
    paltS ["مكان", "موقع"],
    pstr " "]),
  (true,
   pcat [paltS ["دلني", "دلوني", "ارشدني", "أرشدني"],
    pstr " ",
    paltS ["على", "عن", "الى", "إلى"],
    pstr " "]),
  (true,
   pcat [paltS ["ابحث", "أبحث"],
    pstr " عن "])
]

/-- search.py end_phrases in _clean_search_query. -/
def endPhrases : List (Bool × Pat) := [
  (false,
   pcat [pstr " في ",
    paltS ["الرياض", "جدة", "مكة", "المدينة", "الدمام"],
    Pat.starG isNotNewline,
    Pat.eos]),
  (false,
   pcat [pstr " بالقرب من",
    Pat.starG isNotNewline,
    Pat.eos]),
  (false,
   pcat [pstr " على طريق",
    Pat.starG isNotNewline,
    Pat.eos]),
  (false,
   pcat [pstr " عند",
    Pat.starG isNotNewline,
    Pat.eos])
]

/-- search.py facility_keywords of FacilitySearchService. -/
def seFacilityKeywords : List (String × List String) := [
  ("مدرسة", ["مدرسة", "مدارس", "تعليم", "دراسة", "مؤسسة تعليمية", "روضة", "ابتدائي", "متوسط", "ثانوي"]),
  ("مستشفى", ["مستشفى", "مستشفيات", "صحة", "طبية", "علاج", "مركز صحي", "عيادة", "مستوصف", "مركز طبي"]),
  ("حديقة", ["حديقة", "حدائق", "منتزه", "متنزه", "ملعب", "ساحة", "مساحة خضراء"]),
  ("سوبرماركت", ["سوبرماركت", "محل", "بقالة", "تسوق", "تموينات", "دكان", "متجر", "سوق", "ماركت"]),
  ("مول", ["مول", "مولات", "مركز تسوق", "تسوق", "مجمع تجاري", "مركز تجاري", "سوق"])
]


/-! ## C4: the Arabic text normalizers

utils/helpers.py normalize_arabic_text applies five re.sub passes, each of
which rewrites single characters; services/neighborhood/search.py has the
variant FacilitySearchService._normalize_arabic_text which also deletes the
diacritic range 064B-065F.  Each re.sub over a one-character class is a map
over the characters of the string (and the deletion a filter). -/

/-- re.sub of the class [إأآا] by bare alef. -/
def subAlef (c : Char) : Char :=
  if c = 'إ' ∨ c = 'أ' ∨ c = 'آ' ∨ c = 'ا' then 'ا' else c

/-- helpers.py second pass: re.sub of [ىی] by yaa. -/
def subYaaHelpers (c : Char) : Char := if c = 'ى' ∨ c = 'ی' then 'ي' else c

/-- helpers.py third pass: re.sub of ؤ by waw. -/
def subWaw (c : Char) : Char := if c = 'ؤ' then 'و' else c

/-- helpers.py fourth pass: re.sub of ئ by yaa. -/
def subHamzaYaa (c : Char) : Char := if c = 'ئ' then 'ي' else c

/-- re.sub of taa marbuta by haa. -/
def subTaa (c : Char) : Char := if c = 'ة' then 'ه' else c

/-- utils/helpers.py normalize_arabic_text: empty (or absent) input gives the
empty string, otherwise the five substitution passes in source order. -/
def normalizeArabicText (s : List Char) : List Char :=
  if s.isEmpty then []
  else ((((s.map subAlef).map subYaaHelpers).map subWaw).map subHamzaYaa).map subTaa

/-- search.py second pass: re.sub of [ىیي] by yaa. -/
def subYaaSearch (c : Char) : Char := if c = 'ى' ∨ c = 'ی' ∨ c = 'ي' then 'ي' else c

/-- search.py fourth pass: re.sub of alef maksura by yaa. -/
def subAlefMaqsura (c : Char) : Char := if c = 'ى' then 'ي' else c

/-- The Arabic diacritics range 064B-065F removed by the search-service
normalizer. -/
def isTashkeel (c : Char) : Bool := 0x64B ≤ c.toNat && c.toNat ≤ 0x65F

/-- services/neighborhood/search.py FacilitySearchService._normalize_arabic_text:
four substitution passes then removal of the diacritics, in source order. -/
def fsNormalizeArabicText (s : List Char) : List Char :=
  ((((s.map subAlef).map subYaaSearch).map subTaa).map subAlefMaqsura).filter
    (fun c => !isTashkeel c)

/-- The helpers normalizer as a single character map. -/
def helpersChar (c : Char) : Char :=
  subTaa (subHamzaYaa (subWaw (subYaaHelpers (subAlef c))))

/-- The search normalizer character map (before the diacritics filter). -/
def searchChar (c : Char) : Char :=
  subAlefMaqsura (subTaa (subYaaSearch (subAlef c)))

theorem helpers_maps_eq (s : List Char) :
    ((((s.map subAlef).map subYaaHelpers).map subWaw).map subHamzaYaa).map subTaa
      = s.map helpersChar := by
  induction s with
  | nil => rfl
  | cons c t ih => simp only [List.map_cons]; rw [ih]; rfl

theorem normalizeArabicText_eq_map (s : List Char) :
    normalizeArabicText s = s.map helpersChar := by
  cases s with
  | nil => rfl
  | cons c t =>
    show ((((((c :: t).map subAlef).map subYaaHelpers).map subWaw).map subHamzaYaa).map subTaa) = _
    exact helpers_maps_eq (c :: t)

theorem search_maps_eq (s : List Char) :
    (((s.map subAlef).map subYaaSearch).map subTaa).map subAlefMaqsura = s.map searchChar := by
  induction s with
  | nil => rfl
  | cons c t ih => simp only [List.map_cons]; rw [ih]; rfl

theorem fsNormalizeArabicText_eq (s : List Char) :
    fsNormalizeArabicText s = (s.map searchChar).filter (fun c => !isTashkeel c) := by
  unfold fsNormalizeArabicText
  rw [search_maps_eq]

theorem helpersChar_idem (c : Char) : helpersChar (helpersChar c) = helpersChar c := by
  by_cases h : c = 'إ' ∨ c = 'أ' ∨ c = 'آ' ∨ c = 'ا' ∨ c = 'ى' ∨ c = 'ی' ∨ c = 'ؤ'
      ∨ c = 'ئ' ∨ c = 'ة'
  · rcases h with rfl | rfl | rfl | rfl | rfl | rfl | rfl | rfl | rfl <;> decide
  · push_neg at h
    obtain ⟨h1, h2, h3, h4, h5, h6, h7, h8, h9⟩ := h
    have hfix : helpersChar c = c := by
      simp [helpersChar, subAlef, subYaaHelpers, subWaw, subHamzaYaa, subTaa,
        h1, h2, h3, h4, h5, h6, h7, h8, h9]
    rw [hfix, hfix]

theorem searchChar_idem (c : Char) : searchChar (searchChar c) = searchChar c := by
  by_cases h : c = 'إ' ∨ c = 'أ' ∨ c = 'آ' ∨ c = 'ا' ∨ c = 'ى' ∨ c = 'ی' ∨ c = 'ي' ∨ c = 'ة'
  · rcases h with rfl | rfl | rfl | rfl | rfl | rfl | rfl | rfl <;> decide
  · push_neg at h
    obtain ⟨h1, h2, h3, h4, h5, h6, h7, h8⟩ := h
    have hfix : searchChar c = c := by
      simp [searchChar, subAlef, subYaaSearch, subTaa, subAlefMaqsura,
        h1, h2, h3, h4, h5, h6, h7, h8]
    rw [hfix, hfix]

theorem map_helpersChar_idem (s : List Char) :
    (s.map helpersChar).map helpersChar = s.map helpersChar := by
  induction s with
  | nil => rfl
  | cons c t ih => simp only [List.map_cons, helpersChar_idem, ih]

theorem normalizeArabicText_idem (s : List Char) :
    normalizeArabicText (normalizeArabicText s) = normalizeArabicText s := by
  rw [normalizeArabicText_eq_map (normalizeArabicText s), normalizeArabicText_eq_map s]
  exact map_helpersChar_idem s

theorem fsNormalizeArabicText_cons (c : Char) (t : List Char) :
    fsNormalizeArabicText (c :: t) =
      if isTashkeel (searchChar c) then fsNormalizeArabicText t
      else searchChar c :: fsNormalizeArabicText t := by
  rw [fsNormalizeArabicText_eq, fsNormalizeArabicText_eq]
  by_cases h : isTashkeel (searchChar c) <;> simp [List.filter_cons, h]

theorem fsNormalizeArabicText_idem (s : List Char) :
    fsNormalizeArabicText (fsNormalizeArabicText s) = fsNormalizeArabicText s := by
  induction s with
  | nil => rfl
  | cons c t ih =>
    rw [fsNormalizeArabicText_cons]
    by_cases h : isTashkeel (searchChar c)
    · rw [if_pos h]; exact ih
    · rw [if_neg h, fsNormalizeArabicText_cons, searchChar_idem, if_neg h, ih]

/-- C4 counterexample: the claim asserts that the normalizer strips
diacritics, but utils/helpers.py normalize_arabic_text has no diacritics
pass: normalizing a word carrying a fatha keeps the fatha. -/
theorem c4_counterexample :
    (normalizeArabicText ("عَن".data)).any isTashkeel = true ∧
      normalizeArabicText ("عَن".data) = "عَن".data := by
  constructor <;> decide

/-- C4 (amended): both normalizers are idempotent; both map the alef
variants to bare alef, yaa variants and alef maksura to yaa, and taa marbuta
to haa; the search-service normalizer strips diacritics while the helpers
normalizer leaves them unchanged; empty input yields the empty string; and
both identify the two spellings of Ahmad. -/
theorem c4_normalizer_properties :
    (∀ s, normalizeArabicText (normalizeArabicText s) = normalizeArabicText s) ∧
    (∀ s, fsNormalizeArabicText (fsNormalizeArabicText s) = fsNormalizeArabicText s) ∧
    (normalizeArabicText ("إأآا".data) = "اااا".data ∧
      normalizeArabicText ("ىی".data) = "يي".data ∧
      normalizeArabicText ("ة".data) = "ه".data ∧
      fsNormalizeArabicText ("إأآا".data) = "اااا".data ∧
      fsNormalizeArabicText ("ىیي".data) = "ييي".data ∧
      fsNormalizeArabicText ("ة".data) = "ه".data) ∧
    (∀ s c, c ∈ fsNormalizeArabicText s → isTashkeel c = false) ∧
    (normalizeArabicText [] = [] ∧ fsNormalizeArabicText [] = []) ∧
    (normalizeArabicText ("أحمد".data) = normalizeArabicText ("احمد".data) ∧
      fsNormalizeArabicText ("أحمد".data) = fsNormalizeArabicText ("احمد".data)) := by
  refine ⟨normalizeArabicText_idem, fsNormalizeArabicText_idem, by decide, ?_, by decide, by decide⟩
  intro s c hc
  rw [fsNormalizeArabicText_eq] at hc
  have := List.of_mem_filter hc
  simpa using this

/-- C4 witness: the universally quantified parts of c4_normalizer_properties
applied at concrete inputs. -/
theorem c4_witness :
    normalizeArabicText (normalizeArabicText ("أحمد".data)) = normalizeArabicText ("أحمد".data) ∧
      isTashkeel 'ب' = false :=
  ⟨c4_normalizer_properties.1 ("أحمد".data),
    c4_normalizer_properties.2.2.2.1 ("به".data) 'ب' (by decide)⟩

/-! ## C6: the per-user conversation history (core/chatbot.py add_to_history)

The dict user_chat_histories is modelled as a total function from user ids to
turn lists (a missing key reads as the empty list, which is exactly what the
source initialization branch produces).  The wall-clock timestamp is passed
as a parameter. -/

structure Turn where
  user : String
  bot : String
  timestamp : String
deriving DecidableEq

/-- core/chatbot.py NeighborhoodChatbot.add_to_history: append one turn for
the user, then keep only the last 50 turns (the slice [-50:]) when the list
exceeds 50. -/
def addToHistory (hist : String → List Turn) (userId userMessage botResponse ts : String) :
    String → List Turn := fun uid =>
  if uid = userId then
    if 50 < (hist userId ++ [Turn.mk userMessage botResponse ts]).length then
      (hist userId ++ [Turn.mk userMessage botResponse ts]).drop
        ((hist userId ++ [Turn.mk userMessage botResponse ts]).length - 50)
    else hist userId ++ [Turn.mk userMessage botResponse ts]
  else hist uid

/-- C6: every call to add_to_history appends exactly one turn for that user,
after the call the stored list has length at most 50 and is a suffix (the
most recent turns in order, oldest dropped first) of the appended list, and
the histories of all other users are unchanged. -/
theorem c6_history_invariant (hist : String → List Turn)
    (userId userMessage botResponse ts : String) :
    (addToHistory hist userId userMessage botResponse ts userId =
        (hist userId ++ [Turn.mk userMessage botResponse ts]).drop
          ((hist userId).length + 1 - 50)) ∧
    (addToHistory hist userId userMessage botResponse ts userId).length ≤ 50 ∧
    (addToHistory hist userId userMessage botResponse ts userId) <:+
      (hist userId ++ [Turn.mk userMessage botResponse ts]) ∧
    (∀ uid, uid ≠ userId → addToHistory hist userId userMessage botResponse ts uid = hist uid) := by
  have hlen : (hist userId ++ [Turn.mk userMessage botResponse ts]).length =
      (hist userId).length + 1 := by simp
  have key : addToHistory hist userId userMessage botResponse ts userId =
      (hist userId ++ [Turn.mk userMessage botResponse ts]).drop
        ((hist userId).length + 1 - 50) := by
    show (if userId = userId then _ else _) = _
    rw [if_pos rfl]
    by_cases h : 50 < (hist userId ++ [Turn.mk userMessage botResponse ts]).length
    · rw [if_pos h, hlen]
    · rw [if_neg h]
      rw [hlen] at h
      have h0 : (hist userId).length + 1 - 50 = 0 := by omega
      rw [h0, List.drop_zero]
  refine ⟨key, ?_, ?_, ?_⟩
  · rw [key, List.length_drop, hlen]
    omega
  · rw [key]
    exact List.drop_suffix _ _
  · intro uid huid
    show (if uid = userId then _ else _) = _
    rw [if_neg huid]

/-- C6 witness: the unchanged-other-users clause of c6_history_invariant at a
concrete state. -/
theorem c6_witness :
    addToHistory (fun _ => []) "u1" "سؤال" "جواب" "t0" "u2" = [] :=
  (c6_history_invariant (fun _ => []) "u1" "سؤال" "جواب" "t0").2.2.2 "u2" (by decide)

/-! ## C2: proximity-facility extraction
(utils/query_processor.py QueryProcessor._extract_proximity_facilities)

The first pass runs re.finditer with the pattern phrase-space-capture for
each proximity phrase, where the capture is a greedy run of characters other
than dot, Arabic comma and comma; finditer yields the non-overlapping
occurrences left to right, resuming after each match.  The second pass walks
the facility-keyword dictionary and, for the first keyword of each type that
occurs in the message, appends one entry unless an entry of that type is
already present. -/

structure ProxFacility where
  text : List Char
  ptype : String
deriving DecidableEq

/-- finditer over the pattern phrase-space-capture: all captured texts, left
to right, non-overlapping, scanning resuming after each match. -/
def scanProxF (phrase : List Char) : Nat → List Char → List (List Char)
  | 0, _ => []
  | _, [] => []
  | fuel + 1, c :: t =>
    if (phrase ++ [' ']).isPrefixOf (c :: t) then
      ((c :: t).drop (phrase.length + 1)).takeWhile isNotStopMark ::
        scanProxF phrase fuel (((c :: t).drop (phrase.length + 1)).drop
          (((c :: t).drop (phrase.length + 1)).takeWhile isNotStopMark).length)
    else scanProxF phrase fuel t

/-- finditer over the pattern phrase-space-capture (see the doc comment
above); every step consumes at least one character, so fuel equal to the
string length suffices. -/
def scanProx (phrase s : List Char) : List (List Char) := scanProxF phrase s.length s

/-- Classify a captured text by the first facility type one of whose
keywords occurs in it (dictionary order). -/
def classifyFacilityText (facilityText : List Char) : Option String :=
  (qpFacilityKeywords.find? (fun tk => tk.2.any (fun kw => isSubL kw.data facilityText))).map
    (fun tk => tk.1)

/-- The first pass of _extract_proximity_facilities: near-phrase captures,
stripped and classified, in phrase order then match order. -/
def nearPass (message : List Char) : List ProxFacility :=
  proximityKeywords.foldl (fun acc phrase =>
    acc ++ ((scanProx phrase.data message).filterMap (fun captext =>
      (classifyFacilityText (pyStrip captext)).map
        (fun t => ProxFacility.mk (pyStrip captext) t)))) []

/-- The second pass of _extract_proximity_facilities exactly as in the
source: iterate the facility types accumulating into the same list, adding
the first keyword of a type found in the message when no entry of that type
is present yet. -/
def directPassAux (message : List Char) (facilities : List ProxFacility) :
    List (String × List String) → List ProxFacility
  | [] => facilities
  | tk :: rest =>
    match tk.2.find? (fun kw => isSubL kw.data message) with
    | some kw =>
      if facilities.any (fun f => f.ptype == tk.1) then directPassAux message facilities rest
      else directPassAux message (facilities ++ [ProxFacility.mk kw.data tk.1]) rest
    | none => directPassAux message facilities rest

/-- QueryProcessor._extract_proximity_facilities: the first pass followed by
the accumulating second pass. -/
def extractProximityFacilities (message : List Char) : List ProxFacility :=
  directPassAux message (nearPass message) qpFacilityKeywords

/-- The second pass described independently of the accumulator: one entry
per facility type whose first matching keyword occurs in the message and
whose type has no entry in the first-pass list. -/
def directPass (message : List Char) (near : List ProxFacility) : List ProxFacility :=
  qpFacilityKeywords.filterMap (fun tk =>
    match tk.2.find? (fun kw => isSubL kw.data message) with
    | some kw =>
      if near.any (fun f => f.ptype == tk.1) then none
      else some (ProxFacility.mk kw.data tk.1)
    | none => none)

/-- The second pass as the claim words it: EVERY directly mentioned facility
keyword whose type was not captured by the first pass. -/
def claimDirectPass (message : List Char) (near : List ProxFacility) : List ProxFacility :=
  qpFacilityKeywords.foldr (fun tk acc =>
    (tk.2.filterMap (fun kw =>
      if isSubL kw.data message && !(near.any (fun f => f.ptype == tk.1)) then
        some (ProxFacility.mk kw.data tk.1)
      else none)) ++ acc) []

theorem directPassAux_decompose (message : List Char) :
    ∀ (ks : List (String × List String)) (near adds : List ProxFacility),
      (ks.map (fun tk => tk.1)).Nodup →
      (∀ f ∈ adds, ∀ tk ∈ ks, f.ptype ≠ tk.1) →
      directPassAux message (near ++ adds) ks =
        near ++ adds ++ ks.filterMap (fun tk =>
          match tk.2.find? (fun kw => isSubL kw.data message) with
          | some kw =>
            if near.any (fun f => f.ptype == tk.1) then none
            else some (ProxFacility.mk kw.data tk.1)
          | none => none) := by
  intro ks
  induction ks with
  | nil => intro near adds _ _; simp [directPassAux]
  | cons tk rest ih =>
    intro near adds hnodup hdisj
    have hnodup' : (rest.map (fun tk => tk.1)).Nodup := by
      simp only [List.map_cons, List.nodup_cons] at hnodup
      exact hnodup.2
    have hhead : tk.1 ∉ rest.map (fun tk => tk.1) := by
      simp only [List.map_cons, List.nodup_cons] at hnodup
      exact hnodup.1
    cases hfind : tk.2.find? (fun kw => isSubL kw.data message) with
    | none =>
      simp only [directPassAux, hfind]
      rw [ih near adds hnodup' (fun f hf tk2 htk2 => hdisj f hf tk2 (List.mem_cons_of_mem _ htk2))]
      simp [List.filterMap_cons, hfind]
    | some kw =>
      have hadds : adds.any (fun f => f.ptype == tk.1) = false := by
        rw [List.any_eq_false]
        intro f hf
        simpa using hdisj f hf tk (List.mem_cons_self _ _)
      have hcombined : (near ++ adds).any (fun f => f.ptype == tk.1)
          = near.any (fun f => f.ptype == tk.1) := by
        rw [List.any_append, hadds, Bool.or_false]
      simp only [directPassAux, hfind, hcombined]
      by_cases hN : near.any (fun f => f.ptype == tk.1)
      · rw [if_pos hN]
        rw [ih near adds hnodup' (fun f hf tk2 htk2 => hdisj f hf tk2 (List.mem_cons_of_mem _ htk2))]
        rw [List.filterMap_cons]
        simp only [hfind]
        rw [if_pos hN]
      · rw [if_neg hN]
        have hdisj' : ∀ f ∈ adds ++ [ProxFacility.mk kw.data tk.1], ∀ tk2 ∈ rest, f.ptype ≠ tk2.1 := by
          intro f hf tk2 htk2
          rcases List.mem_append.mp hf with hf1 | hf2
          · exact hdisj f hf1 tk2 (List.mem_cons_of_mem _ htk2)
          · simp only [List.mem_singleton] at hf2
            subst hf2
            intro hcontra
            apply hhead
            simp only [ProxFacility.mk] at hcontra
            rw [show tk.1 = tk2.1 from hcontra]
            exact List.mem_map_of_mem (fun tk => tk.1) htk2
        have hstep := ih near (adds ++ [ProxFacility.mk kw.data tk.1]) hnodup' hdisj'
        rw [List.append_assoc] at hstep ⊢
        rw [hstep]
        rw [List.filterMap_cons]
        simp only [hfind]
        rw [if_neg hN]
        simp [List.append_assoc]

/-- C2 counterexample: the claim, read as stated, says the second pass adds
EVERY directly mentioned facility keyword whose type was not captured as a
near-phrase; on the message mentioning both school keywords (madrasa and
rawda) the extractor adds only the first keyword of the type, so its output
differs from the claimed first-pass-plus-every-keyword decomposition. -/
theorem c2_counterexample :
    extractProximityFacilities ("مدرسة روضة".data)
        = [ProxFacility.mk ("مدرسة".data) "مدرسة"] ∧
      claimDirectPass ("مدرسة روضة".data) (nearPass ("مدرسة روضة".data))
        = [ProxFacility.mk ("مدرسة".data) "مدرسة", ProxFacility.mk ("روضة".data) "مدرسة"] ∧
      extractProximityFacilities ("مدرسة روضة".data)
        ≠ nearPass ("مدرسة روضة".data)
            ++ claimDirectPass ("مدرسة روضة".data) (nearPass ("مدرسة روضة".data)) := by
  refine ⟨by decide, by decide, by decide⟩

/-- C2 (amended): the extractor output is the near-phrase pass followed by a
second pass that adds, for each facility type in dictionary order, the first
directly mentioned keyword of that type, skipping types already captured by
the near-phrase pass; and the resulting list is not deduplicated by type
(the near-phrase pass may contribute several entries of one type). -/
theorem c2_proximity_extraction :
    (∀ message, extractProximityFacilities message
        = nearPass message ++ directPass message (nearPass message)) ∧
      ((extractProximityFacilities ("قريب من مدرسة، بجوار مدارس".data)).filter
          (fun f => f.ptype == "مدرسة")).length = 3 := by
  constructor
  · intro message
    have h := directPassAux_decompose message qpFacilityKeywords (nearPass message) []
      (by decide) (by intro f hf; simp at hf)
    simpa [extractProximityFacilities, directPass] using h
  · decide

/-! ## C3: budget extraction (utils/query_processor.py QueryProcessor._extract_budget)

The patterns are tried in order; the first one that matches decides the
result.  The captured number has its thousands separators removed, is parsed
as a float and scaled by the unit word found in the whole match (group 0):
1000 for the thousands words, 1000000 for the millions word.  The capture
class only admits digits with optional comma and decimal groups, so the
float parse of the source cannot fail; the parse is embedded exactly over
the rationals with final truncation, matching int(). -/

/-- int(float(digits) * mult) for a capture of the form digits, optional
comma group already removed, optional dot-fraction. -/
def parseScaledNumber (digits : List Char) (mult : Nat) : Nat :=
  match pySplitOn '.' digits with
  | [ip] => digitsToNat ip * mult
  | [ip, fp] => (digitsToNat ip * 10 ^ fp.length + digitsToNat fp) * mult / 10 ^ fp.length
  | _ => 0

/-- The pattern loop of _extract_budget: on the first match, strip commas
from group 1, choose the multiplier from the unit word in group 0, and
return the scaled value. -/
def extractBudgetGo (message : List Char) : List (Bool × Pat) → Option Nat
  | [] => none
  | bp :: rest =>
    match reGroups bp.1 bp.2 message with
    | some (g0, some g1) =>
      some (parseScaledNumber (pyReplace [','] [] g1)
        (if isSubL ("ألف".data) g0 || isSubL ("الف".data) g0 then 1000
         else if isSubL ("مليون".data) g0 then 1000000 else 1))
    | some (_, none) => none
    | none => extractBudgetGo message rest

/-- QueryProcessor._extract_budget. -/
def extractBudget (message : List Char) : Option Nat :=
  extractBudgetGo message qpBudgetPatterns

/-- C3 counterexample: the claim states that extraction from the salary
phrase with 15,000 yields the budget 15000, but no budget pattern matches it
(every pattern demands a currency or unit word adjacent to the number), so
the extractor returns none. -/
theorem c3_counterexample : extractBudget ("راتبي 15,000".data) = none := by decide

/-- C3 (amended): _extract_budget requires a currency or unit word (or a
budget keyword) adjacent to the number, so the salary phrase with 15,000
yields no budget entity; with a currency word the separators are stripped
(15,000 riyal gives 15000), a trailing thousands word scales by 1000, the
millions word scales by 1000000 (the second spec example holds), and a
message without a matching pattern omits the entity. -/
theorem c3_budget_extraction :
    extractBudget ("راتبي 15,000".data) = none ∧
      extractBudget ("ميزانيتي 2 مليون".data) = some 2000000 ∧
      extractBudget ("ميزانيتي 15,000 ريال".data) = some 15000 ∧
      extractBudget ("الميزانية 3 الف".data) = some 3000 ∧
      extractBudget ("مرحبا".data) = none := by
  refine ⟨by decide, by decide, by decide, by decide, by decide⟩

/-! ## C8: the best/worst-neighborhood pre-pass
(core/chatbot.py NeighborhoodChatbot._handle_best_worst_neighborhood_query)

The method strips the message, returns None when a personal-context pattern
or a specific-criterion pattern matches, returns the fixed neutral text when
one of the general best/worst patterns matches, and returns None otherwise.
The re.IGNORECASE flag of the source is inert here: the patterns contain no
cased (Latin) characters. -/

/-- NeighborhoodChatbot._handle_best_worst_neighborhood_query. -/
def handleBestWorstNeighborhoodQuery (message : List Char) : Option String :=
  if reAnyTest contextualPatterns (pyStrip message) then none
  else if reAnyTest criteriaPatterns (pyStrip message) then none
  else if reAnyTest bestWorstPatterns (pyStrip message) then some neutralResponse
  else none

/-- C8: the general best-neighborhood question receives the fixed neutral
disclaimer; any utterance matching a personal-context or specific-criterion
pattern is passed through (None) so normal classification proceeds, in
particular the best-neighborhood-for-families question. -/
theorem c8_best_worst_prepass :
    handleBestWorstNeighborhoodQuery ("ما هو أفضل حي؟".data) = some neutralResponse ∧
      (∀ message,
        (reAnyTest contextualPatterns (pyStrip message) = true ∨
          reAnyTest criteriaPatterns (pyStrip message) = true) →
        handleBestWorstNeighborhoodQuery message = none) ∧
      handleBestWorstNeighborhoodQuery ("أفضل حي للعائلات".data) = none ∧
      reAnyTest criteriaPatterns (pyStrip ("أفضل حي للعائلات".data)) = true := by
  refine ⟨by decide, ?_, by decide, by decide⟩
  intro message h
  unfold handleBestWorstNeighborhoodQuery
  rcases h with h | h
  · rw [if_pos h]
  · by_cases hc : reAnyTest contextualPatterns (pyStrip message) = true
    · rw [if_pos hc]
    · rw [if_neg hc, if_pos h]

/-- C8 witness: the pass-through clause of c8_best_worst_prepass applied to
the best-neighborhood-for-families utterance. -/
theorem c8_witness :
    handleBestWorstNeighborhoodQuery ("أبحث عن أفضل حي".data) = none :=
  c8_best_worst_prepass.2.1 ("أبحث عن أفضل حي".data) (Or.inl (by decide))

/-! ## C7: the short-response resolver
(core/chatbot.py NeighborhoodChatbot._handle_short_response)

The collaborating services (response formatter, facility lookup, facility
summarizer, sample extractor, recommendation service) are passed as function
parameters.  Two branches of the source also append to the history; only the
returned value is modelled.  Helper functions name the source fragments. -/

/-- The facility_types list of _handle_short_response. -/
def facilityTypesList : List String := ["مدرسة", "مستشفى", "حديقة", "سوبرماركت", "مول"]

/-- get_last_n_messages: history[-n:] when long enough, else the whole
history; both cases are the last n entries. -/
def getLastN (history : List Turn) (n : Nat) : List Turn :=
  history.drop (history.length - n)

/-- previous_messages[-1].get of the bot text, with empty default. -/
def lastBotOf (hist : List Turn) : String :=
  (((getLastN hist 3).getLast?).map Turn.bot).getD ""

/-- previous_messages[-2].get of the bot text, with empty default. -/
def secondLastBotOf (hist : List Turn) : String :=
  ((((getLastN hist 3).dropLast).getLast?).map Turn.bot).getD ""

/-- The context-neighborhood recovery: first available neighborhood occurring
in the last bot response, then (when at least two prior turns exist) in the
one before it. -/
def contextNeighborhoodOf (avail : List String) (hist : List Turn) : Option String :=
  match avail.find? (fun nb => isSubL nb.data (lastBotOf hist).data) with
  | some n => some n
  | none =>
    if 2 ≤ (getLastN hist 3).length then
      avail.find? (fun nb => isSubL nb.data (secondLastBotOf hist).data)
    else none

/-- The requested-facility detection of _handle_short_response: the loop over
facility types (whose guard also fires on the bare facilities/schools words),
then the explicit schools override. -/
def requestedFacilityOf (msg : List Char) : Option String :=
  if isSubL ("المدارس".data) msg then some "مدرسة"
  else facilityTypesList.find? (fun fac =>
    isSubL fac.data msg || isSubL (fac.data ++ ("س".data)) msg ||
    isSubL ("مرافق".data) msg || isSubL ("مدارس".data) msg)

/-- The follow-up guard: at most two whitespace tokens and a continuation
keyword contained in the lowercased message. -/
def isShortContinuation (msg : List Char) : Bool :=
  decide ((pySplitWs msg).length ≤ 2) &&
    shortResponseKeywords.any (fun kw => isSubL kw.data (lowerL msg))

/-- The all-facilities overview branch: one or two sample facilities of each
type that exists in the context neighborhood. -/
def facilitiesOverview (findFacilities : String → String → String)
    (extractSample : String → Nat → String) (ctx : String) : String :=
  (facilityTypesList.foldl (fun acc ftype =>
    if !(isSubL ("لم يتم العثور".data) (findFacilities ctx ftype).data) then
      if extractSample (findFacilities ctx ftype) 2 ≠ "" then
        acc ++ "• " ++ extractSample (findFacilities ctx ftype) 2 ++ "\n\n"
      else acc
    else acc)
    ("إليك أبرز المرافق في " ++ ctx ++ ":\n\n"))
  ++ "لعرض قائمة كاملة بالمرافق، يمكنك أن تسأل عن نوع محدد مثل 'أين توجد المدارس في "
  ++ ctx ++ "؟'"

/-- NeighborhoodChatbot._handle_short_response. -/
def handleShortResponse (avail : List String)
    (formatNeighborhood : String → String)
    (findFacilities : String → String → String)
    (summarizeFacilities : String → String → String → String)
    (extractSample : String → Nat → String)
    (recommend : String → String)
    (hist : List Turn) (msg : List Char) : Option String :=
  if isShortContinuation msg then
    if 1 ≤ (getLastN hist 3).length then
      match contextNeighborhoodOf avail hist with
      | some ctx =>
        if isSubL ("المرافق".data) msg || isSubL ("كل المرافق".data) msg then
          some (facilitiesOverview findFacilities extractSample ctx)
        else
          match requestedFacilityOf msg with
          | some fac => some (summarizeFacilities (findFacilities ctx fac) ctx fac)
          | none => some (formatNeighborhood ctx)
      | none =>
        match facilityTypesList.find? (fun fac => isSubL fac.data (lastBotOf hist).data) with
        | some fac =>
          some ("للبحث عن " ++ fac ++ " محددة، أرجو كتابة اسم " ++ fac
            ++ " أو الحي الذي تريد البحث فيه.")
        | none =>
          if isSubL ("اقترح".data) (lastBotOf hist).data
              || isSubL ("أقترح".data) (lastBotOf hist).data
              || isSubL ("أفضل حي".data) (lastBotOf hist).data then
            some (formatNeighborhood (recommend (lastBotOf hist)))
          else none
    else none
  else none

/-- C7: a message is treated as a follow-up only when it has at most two
tokens and contains a continuation keyword (otherwise None); a facility-free
continuation whose most recent bot response contains a known neighborhood is
answered with the formatted response for that exact neighborhood; when the
last bot response holds no neighborhood the one before it is searched; and
when no context is recoverable the resolver returns None; finally the
two-token utterance of the spec recovers the neighborhood from the previous
bot turn. -/
theorem c7_short_response_resolver :
    (∀ avail fN fF sF eS rec hist msg, isShortContinuation msg = false →
      handleShortResponse avail fN fF sF eS rec hist msg = none) ∧
    (∀ avail fN fF sF eS rec hist msg n, isShortContinuation msg = true →
      1 ≤ (getLastN hist 3).length →
      avail.find? (fun nb => isSubL nb.data (lastBotOf hist).data) = some n →
      (isSubL ("المرافق".data) msg || isSubL ("كل المرافق".data) msg) = false →
      requestedFacilityOf msg = none →
      handleShortResponse avail fN fF sF eS rec hist msg = some (fN n)) ∧
    (∀ avail fN fF sF eS rec hist msg n, isShortContinuation msg = true →
      1 ≤ (getLastN hist 3).length →
      avail.find? (fun nb => isSubL nb.data (lastBotOf hist).data) = none →
      2 ≤ (getLastN hist 3).length →
      avail.find? (fun nb => isSubL nb.data (secondLastBotOf hist).data) = some n →
      (isSubL ("المرافق".data) msg || isSubL ("كل المرافق".data) msg) = false →
      requestedFacilityOf msg = none →
      handleShortResponse avail fN fF sF eS rec hist msg = some (fN n)) ∧
    (∀ avail fN fF sF eS rec hist msg,
      contextNeighborhoodOf avail hist = none →
      facilityTypesList.find? (fun fac => isSubL fac.data (lastBotOf hist).data) = none →
      (isSubL ("اقترح".data) (lastBotOf hist).data
        || isSubL ("أقترح".data) (lastBotOf hist).data
        || isSubL ("أفضل حي".data) (lastBotOf hist).data) = false →
      handleShortResponse avail fN fF sF eS rec hist msg = none) ∧
    (∀ avail fN fF sF eS rec msg,
      handleShortResponse avail fN fF sF eS rec [] msg = none) ∧
    (∀ fN fF sF eS rec,
      handleShortResponse ["الشفا", "الياسمين"] fN fF sF eS rec
        [Turn.mk "أريد حيا مناسبا" "أنصحك بحي الياسمين" "t1"] ("نعم اكيد".data)
        = some (fN "الياسمين")) := by
  refine ⟨?_, ?_, ?_, ?_, ?_, ?_⟩
  · intro avail fN fF sF eS rec hist msg h
    unfold handleShortResponse
    rw [if_neg (by simp [h])]
  · intro avail fN fF sF eS rec hist msg n h1 h2 h3 h4 h5
    unfold handleShortResponse
    rw [if_pos h1, if_pos h2]
    have hctx : contextNeighborhoodOf avail hist = some n := by
      unfold contextNeighborhoodOf
      rw [h3]
    rw [hctx]
    simp only [h4, Bool.false_eq_true, if_false, h5]
  · intro avail fN fF sF eS rec hist msg n h1 h2 h3 h4 h5 h6 h7
    unfold handleShortResponse
    rw [if_pos h1, if_pos h2]
    have hctx : contextNeighborhoodOf avail hist = some n := by
      unfold contextNeighborhoodOf
      rw [h3, if_pos h4, h5]
    rw [hctx]
    simp only [h6, Bool.false_eq_true, if_false, h7]
  · intro avail fN fF sF eS rec hist msg hctx hfac hsim
    unfold handleShortResponse
    by_cases h1 : isShortContinuation msg = true
    · rw [if_pos h1]
      by_cases h2 : 1 ≤ (getLastN hist 3).length
      · rw [if_pos h2, hctx, hfac, if_neg (by simp [hsim])]
      · rw [if_neg h2]
    · rw [if_neg h1]
  · intro avail fN fF sF eS rec msg
    unfold handleShortResponse
    by_cases h1 : isShortContinuation msg = true
    · rw [if_pos h1, if_neg (by simp [getLastN])]
    · rw [if_neg h1]
  · intro fN fF sF eS rec
    rfl

/-- C7 witness: the last-bot-response recovery clause of
c7_short_response_resolver applied at a concrete conversation state. -/
theorem c7_witness :
    handleShortResponse ["الشفا", "النرجس"] (fun n => "حي " ++ n)
      (fun _ _ => "") (fun a _ _ => a) (fun a _ => a) (fun _ => "")
      [Turn.mk "سؤال" "أنصحك بحي النرجس" "t1"] ("المزيد".data)
      = some ("حي " ++ "النرجس") :=
  c7_short_response_resolver.2.1 ["الشفا", "النرجس"] (fun n => "حي " ++ n)
    (fun _ _ => "") (fun a _ _ => a) (fun a _ => a) (fun _ => "")
    [Turn.mk "سؤال" "أنصحك بحي النرجس" "t1"] ("المزيد".data) "النرجس"
    (by decide) (by decide) (by decide) (by decide) (by decide)

/-! ## C9: budget-tier recommendation
(core/chatbot.py NeighborhoodChatbot._handle_budget_query)

The salary patterns are tried in order; on the first match the captured
number (commas stripped) is parsed with int, the income category chosen by
the five-band cascade, the corpus filtered by the price-level attribute of
find_neighborhood_info, and on an empty filter a random sample of min 3
neighborhoods is used instead.  find_neighborhood_info is modelled as a map
from names to attribute dictionaries, random.sample as a function parameter,
and the response builder plus the rent sentence (whose figure uses float
formatting) as function parameters; the int ValueError branch of the source
is unreachable here because the capture class only admits digits and
commas. -/

/-- The five-band income-category cascade. -/
def incomeCategoryOf (budget : Nat) : String :=
  if budget < 5000 then "منخفض"
  else if budget < 10000 then "منخفض إلى متوسط"
  else if budget < 15000 then "متوسط"
  else if budget < 25000 then "متوسط إلى مرتفع"
  else "مرتفع"

/-- The per-category acceptance test on the lowercased price level. -/
def priceLevelAccepts (category priceLevel : String) : Bool :=
  if category == "منخفض" then isSubL ("منخفض".data) (lowerL priceLevel.data)
  else if category == "منخفض إلى متوسط" then
    isSubL ("منخفض".data) (lowerL priceLevel.data)
      || isSubL ("متوسط".data) (lowerL priceLevel.data)
  else if category == "متوسط" then isSubL ("متوسط".data) (lowerL priceLevel.data)
  else if category == "متوسط إلى مرتفع" then
    isSubL ("متوسط".data) (lowerL priceLevel.data)
      || isSubL ("مرتفع".data) (lowerL priceLevel.data)
  else if category == "مرتفع" then isSubL ("مرتفع".data) (lowerL priceLevel.data)
  else false

/-- The corpus filter: neighborhoods with a nonempty info record carrying
the price-level key whose value the category accepts. -/
def recommendedForCategory (infoOf : String → List (String × String))
    (allNeighborhoods : List String) (category : String) : List String :=
  allNeighborhoods.filter (fun nb =>
    if (infoOf nb).isEmpty then false
    else
      match (infoOf nb).find? (fun kv => kv.1 == "مستوى_الأسعار") with
      | some kv => priceLevelAccepts category kv.2
      | none => false)

/-- The selection including the random-sample fallback of the source. -/
def budgetSelection (infoOf : String → List (String × String))
    (allNeighborhoods : List String) (sample : List String → Nat → List String)
    (budget : Nat) : List String :=
  if (recommendedForCategory infoOf allNeighborhoods (incomeCategoryOf budget)).isEmpty
      ∧ ¬allNeighborhoods.isEmpty then
    sample allNeighborhoods (min 3 allNeighborhoods.length)
  else recommendedForCategory infoOf allNeighborhoods (incomeCategoryOf budget)

/-- The apology returned when even the fallback list is empty. -/
def budgetApology : String :=
  "عذراً، لم أتمكن من العثور على أحياء محددة تتناسب مع ميزانيتك. يرجى تزويدي بمزيد من المعلومات عن احتياجاتك السكنية، مثل المنطقة المفضلة أو المرافق المطلوبة، لمساعدتك بشكل أفضل."

/-- The pattern loop of _handle_budget_query. -/
def handleBudgetQueryGo (infoOf : String → List (String × String))
    (allNeighborhoods : List String) (sample : List String → Nat → List String)
    (buildResponse : String → String) (rentSentence : Nat → String → String)
    (message : List Char) : List (Bool × Pat) → Option String
  | [] => none
  | bp :: rest =>
    match reGroups bp.1 bp.2 message with
    | some (_, some g1) =>
      let budget := digitsToNat (pyReplace [','] [] g1)
      let recommended := budgetSelection infoOf allNeighborhoods sample budget
      if recommended.isEmpty then some budgetApology
      else
        some (buildResponse (recommended.headD "") ++ rentSentence budget (recommended.headD "")
          ++ (if 1 < recommended.length then
                " يمكنك أيضاً النظر في أحياء بديلة مثل "
                ++ String.intercalate "، " ((recommended.drop 1).take 2)
                ++ " التي تتناسب مع ميزانيتك."
              else ""))
    | some (_, none) =>
      handleBudgetQueryGo infoOf allNeighborhoods sample buildResponse rentSentence message rest
    | none =>
      handleBudgetQueryGo infoOf allNeighborhoods sample buildResponse rentSentence message rest

/-- NeighborhoodChatbot._handle_budget_query. -/
def handleBudgetQuery (infoOf : String → List (String × String))
    (allNeighborhoods : List String) (sample : List String → Nat → List String)
    (buildResponse : String → String) (rentSentence : Nat → String → String)
    (message : List Char) : Option String :=
  handleBudgetQueryGo infoOf allNeighborhoods sample buildResponse rentSentence message
    cbBudgetPatterns

/-- A concrete corpus for the end-to-end budget scenario. -/
def c9AllNeighborhoods : List String := ["الشفا", "النرجس", "الياسمين"]

/-- Concrete neighborhood info: one low-, one high-, one mid-priced. -/
def c9InfoOf (nb : String) : List (String × String) :=
  if nb == "الشفا" then [("مستوى_الأسعار", "منخفض")]
  else if nb == "النرجس" then [("مستوى_الأسعار", "مرتفع")]
  else if nb == "الياسمين" then [("مستوى_الأسعار", "متوسط")]
  else []

/-- C9: the five ordered income tiers are exactly the bands of the claim;
when the price-level filter yields nothing and the corpus is nonempty, the
selection is a random sample of min 3 neighborhoods rather than no answer;
and the salary-8000 utterance is parsed with budget 8000, classified in the
low-to-mid tier, and answered with a response built from the first
neighborhood of the low/mid filtered list (nonempty). -/
theorem c9_budget_tiers :
    (∀ b, (b < 5000 → incomeCategoryOf b = "منخفض") ∧
      (5000 ≤ b → b < 10000 → incomeCategoryOf b = "منخفض إلى متوسط") ∧
      (10000 ≤ b → b < 15000 → incomeCategoryOf b = "متوسط") ∧
      (15000 ≤ b → b < 25000 → incomeCategoryOf b = "متوسط إلى مرتفع") ∧
      (25000 ≤ b → incomeCategoryOf b = "مرتفع")) ∧
    (∀ infoOf allN sample b,
      recommendedForCategory infoOf allN (incomeCategoryOf b) = [] → allN ≠ [] →
      budgetSelection infoOf allN sample b = sample allN (min 3 allN.length)) ∧
    (incomeCategoryOf 8000 = "منخفض إلى متوسط" ∧
      recommendedForCategory c9InfoOf c9AllNeighborhoods "منخفض إلى متوسط"
        = ["الشفا", "الياسمين"]) ∧
    (∀ sample buildResponse rentSentence,
      handleBudgetQuery c9InfoOf c9AllNeighborhoods sample buildResponse rentSentence
          ("ابحث عن حي يناسب راتب 8000".data)
        = some (buildResponse "الشفا" ++ rentSentence 8000 "الشفا"
            ++ (" يمكنك أيضاً النظر في أحياء بديلة مثل "
                ++ String.intercalate "، " ["الياسمين"]
                ++ " التي تتناسب مع ميزانيتك."))) := by
  refine ⟨?_, ?_, ⟨by decide, by decide⟩, ?_⟩
  · intro b
    refine ⟨?_, ?_, ?_, ?_, ?_⟩
    · intro h; unfold incomeCategoryOf; rw [if_pos h]
    · intro h1 h2; unfold incomeCategoryOf; rw [if_neg (by omega), if_pos h2]
    · intro h1 h2; unfold incomeCategoryOf; rw [if_neg (by omega), if_neg (by omega), if_pos h2]
    · intro h1 h2
      unfold incomeCategoryOf
      rw [if_neg (by omega), if_neg (by omega), if_neg (by omega), if_pos h2]
    · intro h
      unfold incomeCategoryOf
      rw [if_neg (by omega), if_neg (by omega), if_neg (by omega), if_neg (by omega)]
  · intro infoOf allN sample b h1 h2
    unfold budgetSelection
    rw [if_pos ⟨by rw [h1]; rfl, by simpa using h2⟩]
  · intro sample buildResponse rentSentence
    rfl

/-- C9 witness: the tier clause at the concrete salary 8000 and the sample
fallback clause at a corpus whose info records are all empty. -/
theorem c9_witness :
    incomeCategoryOf 8000 = "منخفض إلى متوسط" ∧
      budgetSelection (fun _ => []) ["الشفا"] (fun l n => l.take n) 8000
        = ["الشفا"] :=
  ⟨(c9_budget_tiers.1 8000).2.1 (by decide) (by decide),
    by
      rw [c9_budget_tiers.2.1 (fun _ => []) ["الشفا"] (fun l n => l.take n) 8000
        (by decide) (by decide)]
      decide⟩

/-! ## C1: the case-based recommendation service
(services/neighborhood/recommendation.py NeighborhoodRecommendationService)

get_recommended_neighborhood wraps its whole body in try/except which
would re-raise a failure as NeighborhoodRecommendationError, but the
similarity collaborator find_similar_cases (gemini_service.py) catches every
exception of its own body — and generate_content swallows API errors into an
apology string — returning an empty case frame instead, so no collaborator
failure can reach that except clause: a failure arrives only as an empty
frame and flows into the fallback tiers.  Each case is modelled by its
suggested-neighborhood value (None for a missing or NaN cell).  The
knowledge-base lookup get_cases_for_llm also catches its own errors and
never raises. -/

inductive RecErr where
  | neighborhoodRecommendationError
deriving DecidableEq

/-- The words list of the plain last-line return branch of
extract_explicitly_requested_neighborhood. -/
def lastLineHoodWords : List String := ["حي", "الشفا", "النرجس", "الياسمين", "العقيق", "الملقا"]

/-- The availability check shared by the extraction loops: the first
available neighborhood whose cleaned name equals, contains or is contained
in the cleaned captured name. -/
def findAvailableMatch (avail : List String) (neighborhood : List Char) : Option String :=
  avail.find? (fun hood =>
    let cleanAvailable := pyStrip (pyReplace ("حي ".data) [] hood.data)
    let cleanMatched := pyStrip (pyReplace ("حي ".data) [] neighborhood)
    cleanAvailable == cleanMatched || isSubL cleanAvailable cleanMatched
      || isSubL cleanMatched cleanAvailable)

/-- The explicit-pattern loop: a common-word or too-short capture moves on
to the next pattern; otherwise the loop ends, answering the matching
available neighborhood or None.  The outer Option distinguishes falling
through the loop from an explicit return of None. -/
def explicitLoop (avail : List String) (oneline : List Char) :
    List (Bool × Pat) → Option (Option String)
  | [] => none
  | bp :: rest =>
    match reGroup1 bp.1 bp.2 oneline with
    | none => explicitLoop avail oneline rest
    | some g1 =>
      if commonWords.any (fun w => w.data == pyStrip g1) then explicitLoop avail oneline rest
      else if (pyStrip g1).length < 3 then explicitLoop avail oneline rest
      else
        match findAvailableMatch avail (pyStrip g1) with
        | some hood => some (some hood)
        | none => some none

/-- The last-line pattern loop: a common-word capture moves on; an
availability match returns it; otherwise, when the stripped last line has at
most three tokens and contains one of the neighborhood words, the captured
name itself is returned (the redundant second common-word check of the
source is kept); in every other case the loop continues. -/
def lastLineLoop (avail : List String) (lastLine : List Char) :
    List (Bool × Pat) → Option String
  | [] => none
  | bp :: rest =>
    match reGroup1 bp.1 bp.2 lastLine with
    | none => lastLineLoop avail lastLine rest
    | some g1 =>
      if commonWords.any (fun w => w.data == pyStrip g1) then lastLineLoop avail lastLine rest
      else
        match findAvailableMatch avail (pyStrip g1) with
        | some hood => some hood
        | none =>
          if (pySplitWs lastLine).length ≤ 3
              ∧ lastLineHoodWords.any (fun w => isSubL w.data lastLine) then
            if ¬ commonWords.any (fun w => w.data == pyStrip g1) then
              some (String.mk (pyStrip g1))
            else lastLineLoop avail lastLine rest
          else lastLineLoop avail lastLine rest

/-- NeighborhoodRecommendationService.extract_explicitly_requested_neighborhood.
The final special-pattern block of the source returns None whether or not
one of its patterns matches, so it contributes nothing beyond None. -/
def extractExplicitlyRequestedNeighborhood (avail : List String)
    (userMessage : List Char) : Option String :=
  if userMessage.isEmpty then none
  else
    match explicitLoop avail (pyReplace ['\n'] [' '] userMessage) explicitPatterns with
    | some r => r
    | none =>
      lastLineLoop avail (pyStrip (((pySplitOn '\n' userMessage).getLast?).getD []))
        lastLinePatterns

/-- The housing-pattern loop of extract_neighborhood_from_message. -/
def housingLoop (avail : List String) (msg : List Char) :
    List (Bool × Pat) → Option String
  | [] => none
  | bp :: rest =>
    match reGroup1 bp.1 bp.2 msg with
    | none => housingLoop avail msg rest
    | some g1 =>
      match avail.find? (fun nb =>
        let cleanName := pyStrip (pyReplace ("حي ".data) [] nb.data)
        lowerL cleanName == lowerL (pyStrip g1)
          || isSubL (lowerL cleanName) (lowerL (pyStrip g1))) with
      | some nb => some nb
      | none => housingLoop avail msg rest

/-- NeighborhoodRecommendationService.extract_neighborhood_from_message:
housing patterns first, then a scan for any available neighborhood that
occurs in the message outside the workplace mentions. -/
def extractNeighborhoodFromMessage (avail : List String) (userMessage : List Char) :
    Option String :=
  if userMessage.isEmpty then none
  else
    match housingLoop avail userMessage housingPatterns with
    | some hood => some hood
    | none =>
      avail.find? (fun nb =>
        let cleanName := pyStrip (pyReplace ("حي ".data) [] nb.data)
        isSubL cleanName userMessage
          && !((workPatterns.filterMap (fun bp => (reGroup1 bp.1 bp.2 userMessage).map pyStrip)).any
                (fun workHood => isSubL cleanName workHood)))

/-- NeighborhoodRecommendationService.get_neighborhood_from_list_or_message:
first nonempty non-NaN suggested value, else the message extraction, else
the fixed default. -/
def getNeighborhoodFromListOrMessage (avail : List String) (userMessage : List Char)
    (suggested : List (Option String)) : String :=
  match suggested.find? (fun n =>
      match n with
      | some s => decide (s ≠ "")
      | none => false) with
  | some (some s) => s
  | _ =>
    match extractNeighborhoodFromMessage avail userMessage with
    | some hood => hood
    | none => "الياسمين"

/-- GeminiService.find_similar_cases.  The llmOutcome parameter is the raw
outcome of calling the model and parsing its JSON answer: error for an
exception raised anywhere in the body (caught, yielding the empty frame), ok
none for a JSON-decode failure (falling back to a one-row frame built from
the first knowledge case), ok (some parsed) for a parsed case list, which
when empty also falls back to the first knowledge case.  The function is
total: no failure escapes it. -/
def findSimilarCases (llmOutcome : Except Unit (Option (List (Option String))))
    (knowledgeCases : List (Option String)) : List (Option String) :=
  if knowledgeCases.isEmpty then []
  else
    match llmOutcome with
    | Except.error _ => []
    | Except.ok none => [knowledgeCases.headD none]
    | Except.ok (some parsed) =>
      if parsed.isEmpty then [knowledgeCases.headD none] else parsed

/-- NeighborhoodRecommendationService.get_recommended_neighborhood.  The
RecErr side of the result stands for the re-raise of the except clause; the
embedded body never takes it, because findSimilarCases absorbs every
collaborator failure and the remaining steps are total. -/
def getRecommendedNeighborhood (avail : List String)
    (llmOutcome : Except Unit (Option (List (Option String))))
    (knowledgeCases : List (Option String))
    (userMessage : List Char) : Except RecErr String :=
  match extractExplicitlyRequestedNeighborhood avail userMessage with
  | some hood => Except.ok hood
  | none =>
    let dfSimilar := findSimilarCases llmOutcome knowledgeCases
    if ¬ dfSimilar.isEmpty then
      match dfSimilar.headD none with
      | some s =>
        if s ≠ "" then Except.ok s
        else if ¬ (dfSimilar.filterMap (fun o =>
            match o with
            | some v => if v ≠ "" then some v else none
            | none => none)).isEmpty then
          Except.ok (getNeighborhoodFromListOrMessage avail userMessage
            ((dfSimilar.filterMap (fun o =>
              match o with
              | some v => if v ≠ "" then some v else none
              | none => none)).map Option.some))
        else Except.ok (getNeighborhoodFromListOrMessage avail userMessage [])
      | none =>
        if ¬ (dfSimilar.filterMap (fun o =>
            match o with
            | some v => if v ≠ "" then some v else none
            | none => none)).isEmpty then
          Except.ok (getNeighborhoodFromListOrMessage avail userMessage
            ((dfSimilar.filterMap (fun o =>
              match o with
              | some v => if v ≠ "" then some v else none
              | none => none)).map Option.some))
        else Except.ok (getNeighborhoodFromListOrMessage avail userMessage [])
    else Except.ok (getNeighborhoodFromListOrMessage avail userMessage [])

instance {e a : Type} [DecidableEq e] [DecidableEq a] : DecidableEq (Except e a) := fun x y =>
  match x, y with
  | .ok u, .ok v =>
    if h : u = v then isTrue (by rw [h]) else isFalse (fun hc => h (by injection hc))
  | .error u, .error v =>
    if h : u = v then isTrue (by rw [h]) else isFalse (fun hc => h (by injection hc))
  | .ok _, .error _ => isFalse (fun hc => Except.noConfusion hc)
  | .error _, .ok _ => isFalse (fun hc => Except.noConfusion hc)

theorem isSubL_nil (l : List Char) : isSubL [] l = true := by
  cases l with
  | nil => rfl
  | cons c t => simp [isSubL, List.isPrefixOf]

theorem findAvailableMatch_mem {avail : List String} {nb : List Char} {hood : String}
    (h : findAvailableMatch avail nb = some hood) : hood ∈ avail :=
  List.mem_of_find?_eq_some h

theorem findAvailableMatch_nil_capture (a : String) (rest : List String) :
    (findAvailableMatch (a :: rest) []).isSome := by
  unfold findAvailableMatch
  rw [List.find?_cons]
  have h3 : isSubL (pyStrip (pyReplace ("حي ".data) [] []))
      (pyStrip (pyReplace ("حي ".data) [] a.data)) = true := isSubL_nil _
  simp only [h3, Bool.or_true]
  simp

theorem string_mk_ne_empty {l : List Char} (h : l ≠ []) : String.mk l ≠ "" := by
  intro hc
  exact h (congrArg String.data hc)

theorem explicitLoop_mem {avail : List String} {oneline : List Char} {hood : String} :
    ∀ {ps : List (Bool × Pat)}, explicitLoop avail oneline ps = some (some hood) →
      hood ∈ avail := by
  intro ps
  induction ps with
  | nil => intro h; simp [explicitLoop] at h
  | cons bp rest ih =>
    intro h
    unfold explicitLoop at h
    cases hg : reGroup1 bp.1 bp.2 oneline with
    | none => simp only [hg] at h; exact ih h
    | some g1 =>
      simp only [hg] at h
      by_cases hc : commonWords.any (fun w => w.data == pyStrip g1) = true
      · rw [if_pos hc] at h; exact ih h
      · rw [if_neg hc] at h
        by_cases hs : (pyStrip g1).length < 3
        · rw [if_pos hs] at h; exact ih h
        · rw [if_neg hs] at h
          cases hf : findAvailableMatch avail (pyStrip g1) with
          | none => simp only [hf] at h; simp at h
          | some hood2 =>
            simp only [hf] at h
            simp only [Option.some.injEq] at h
            rw [← h]
            exact findAvailableMatch_mem hf

theorem lastLineLoop_ne_empty {a0 : String} {rest0 : List String} {lastLine : List Char}
    {hood : String} (hne : ∀ n ∈ a0 :: rest0, n ≠ "") :
    ∀ {ps : List (Bool × Pat)}, lastLineLoop (a0 :: rest0) lastLine ps = some hood →
      hood ≠ "" := by
  intro ps
  induction ps with
  | nil => intro h; simp [lastLineLoop] at h
  | cons bp rest ih =>
    intro h
    unfold lastLineLoop at h
    cases hg : reGroup1 bp.1 bp.2 lastLine with
    | none => simp only [hg] at h; exact ih h
    | some g1 =>
      simp only [hg] at h
      by_cases hc : commonWords.any (fun w => w.data == pyStrip g1) = true
      · rw [if_pos hc] at h; exact ih h
      · rw [if_neg hc] at h
        cases hf : findAvailableMatch (a0 :: rest0) (pyStrip g1) with
        | some hood2 =>
          simp only [hf] at h
          simp only [Option.some.injEq] at h
          rw [← h]
          exact hne hood2 (findAvailableMatch_mem hf)
        | none =>
          simp only [hf] at h
          by_cases hcond : (pySplitWs lastLine).length ≤ 3
              ∧ lastLineHoodWords.any (fun w => isSubL w.data lastLine) = true
          · rw [if_pos hcond] at h
            rw [if_pos hc] at h
            simp only [Option.some.injEq] at h
            rw [← h]
            apply string_mk_ne_empty
            intro hnil
            have hsome := findAvailableMatch_nil_capture a0 rest0
            rw [← hnil, hf] at hsome
            simp at hsome
          · rw [if_neg hcond] at h; exact ih h

theorem extractExplicitly_ne_empty {a0 : String} {rest0 : List String} {msg : List Char}
    {hood : String} (hne : ∀ n ∈ a0 :: rest0, n ≠ "")
    (h : extractExplicitlyRequestedNeighborhood (a0 :: rest0) msg = some hood) :
    hood ≠ "" := by
  unfold extractExplicitlyRequestedNeighborhood at h
  by_cases hmt : msg.isEmpty = true
  · rw [if_pos hmt] at h; simp at h
  · rw [if_neg hmt] at h
    cases he : explicitLoop (a0 :: rest0) (pyReplace ['\n'] [' '] msg) explicitPatterns with
    | some r =>
      simp only [he] at h
      rw [h] at he
      exact hne hood (explicitLoop_mem he)
    | none =>
      simp only [he] at h
      exact lastLineLoop_ne_empty hne h

theorem housingLoop_mem {avail : List String} {msg : List Char} {hood : String} :
    ∀ {ps : List (Bool × Pat)}, housingLoop avail msg ps = some hood → hood ∈ avail := by
  intro ps
  induction ps with
  | nil => intro h; simp [housingLoop] at h
  | cons bp rest ih =>
    intro h
    unfold housingLoop at h
    cases hg : reGroup1 bp.1 bp.2 msg with
    | none => simp only [hg] at h; exact ih h
    | some g1 =>
      simp only [hg] at h
      cases hf : avail.find? (fun nb =>
          lowerL (pyStrip (pyReplace ("حي ".data) [] nb.data)) == lowerL (pyStrip g1)
            || isSubL (lowerL (pyStrip (pyReplace ("حي ".data) [] nb.data)))
                 (lowerL (pyStrip g1))) with
      | none => simp only [hf] at h; exact ih h
      | some nb =>
        simp only [hf] at h
        simp only [Option.some.injEq] at h
        rw [← h]
        exact List.mem_of_find?_eq_some hf

theorem extractFromMessage_mem {avail : List String} {msg : List Char} {hood : String}
    (h : extractNeighborhoodFromMessage avail msg = some hood) : hood ∈ avail := by
  unfold extractNeighborhoodFromMessage at h
  by_cases hmt : msg.isEmpty = true
  · rw [if_pos hmt] at h; simp at h
  · rw [if_neg hmt] at h
    cases hh : housingLoop avail msg housingPatterns with
    | some nb =>
      simp only [hh] at h
      simp only [Option.some.injEq] at h
      rw [← h]
      exact housingLoop_mem hh
    | none =>
      simp only [hh] at h
      exact List.mem_of_find?_eq_some h

theorem getFromListOrMessage_ne_empty {avail : List String} {msg : List Char}
    {suggested : List (Option String)} (hne : ∀ n ∈ avail, n ≠ "") :
    getNeighborhoodFromListOrMessage avail msg suggested ≠ "" := by
  unfold getNeighborhoodFromListOrMessage
  cases hfind : suggested.find? (fun n =>
      match n with
      | some s => decide (s ≠ "")
      | none => false) with
  | some x =>
    cases x with
    | some s =>
      have hp := List.find?_some hfind
      simpa using of_decide_eq_true hp
    | none =>
      have hp := List.find?_some hfind
      simp at hp
  | none =>
    cases hx : extractNeighborhoodFromMessage avail msg with
    | some hood => exact hne hood (extractFromMessage_mem hx)
    | none => decide

/-- C1: for every utterance the recommendation service answers with some
nonempty neighborhood name, falling back through the tiers to the fixed
default, provided the configured neighborhood list is nonempty with nonempty
names; and a similarity-collaborator failure is converted into the next
fallback tier — the result is exactly the no-cases fallback — never surfaced
to the caller as an exception or an empty result, with the default
"الياسمين" reached concretely on a greeting. -/
theorem c1_recommendation_fallback :
    (∀ (a0 : String) (rest0 : List String) (msg : List Char)
        (llmOutcome : Except Unit (Option (List (Option String))))
        (knowledgeCases : List (Option String)),
      (∀ n ∈ a0 :: rest0, n ≠ "") →
      ∃ name, getRecommendedNeighborhood (a0 :: rest0) llmOutcome knowledgeCases msg
        = Except.ok name ∧ name ≠ "") ∧
    (∀ (avail : List String) (msg : List Char)
        (knowledgeCases : List (Option String)),
      extractExplicitlyRequestedNeighborhood avail msg = none →
      getRecommendedNeighborhood avail (Except.error ()) knowledgeCases msg
        = Except.ok (getNeighborhoodFromListOrMessage avail msg [])) ∧
    getRecommendedNeighborhood ["النرجس"] (Except.error ()) [some "العليا"]
        ("مرحبا".data) = Except.ok "الياسمين" := by
  refine ⟨?_, ?_, by decide⟩
  · intro a0 rest0 msg llmOutcome knowledgeCases hne
    unfold getRecommendedNeighborhood
    cases hx : extractExplicitlyRequestedNeighborhood (a0 :: rest0) msg with
    | some hood =>
      exact ⟨hood, rfl, extractExplicitly_ne_empty hne hx⟩
    | none =>
      simp only []
      generalize findSimilarCases llmOutcome knowledgeCases = cases0
      by_cases hek : cases0.isEmpty = true
      · rw [if_neg (by simp [hek])]
        exact ⟨_, rfl, getFromListOrMessage_ne_empty hne⟩
      · rw [if_pos hek]
        cases hhd : cases0.headD none with
        | some s =>
          simp only []
          by_cases hs : s ≠ ""
          · rw [if_pos hs]
            exact ⟨s, rfl, hs⟩
          · rw [if_neg hs]
            by_cases hfm : ¬ (cases0.filterMap (fun o =>
                match o with
                | some v => if v ≠ "" then some v else none
                | none => none)).isEmpty = true
            · rw [if_pos hfm]
              exact ⟨_, rfl, getFromListOrMessage_ne_empty hne⟩
            · rw [if_neg hfm]
              exact ⟨_, rfl, getFromListOrMessage_ne_empty hne⟩
        | none =>
          simp only []
          by_cases hfm : ¬ (cases0.filterMap (fun o =>
              match o with
              | some v => if v ≠ "" then some v else none
              | none => none)).isEmpty = true
          · rw [if_pos hfm]
            exact ⟨_, rfl, getFromListOrMessage_ne_empty hne⟩
          · rw [if_neg hfm]
            exact ⟨_, rfl, getFromListOrMessage_ne_empty hne⟩
  · intro avail msg knowledgeCases h
    have hfs : findSimilarCases (Except.error ()) knowledgeCases = [] := by
      unfold findSimilarCases
      by_cases hk : knowledgeCases.isEmpty = true
      · rw [if_pos hk]
      · rw [if_neg hk]
    unfold getRecommendedNeighborhood
    simp only [h, hfs]
    rw [if_neg (by decide)]

/-- C1 witness: the nonempty-answer clause and the failure-conversion clause
of c1_recommendation_fallback at concrete inputs. -/
theorem c1_witness :
    (∃ name, getRecommendedNeighborhood ["النرجس"]
        (Except.ok (some [some "العليا"])) [some "العليا"] ("شكرا جزيلا".data)
        = Except.ok name ∧ name ≠ "") ∧
    getRecommendedNeighborhood ["النرجس"] (Except.error ()) [] ("شكرا جزيلا".data)
      = Except.ok (getNeighborhoodFromListOrMessage ["النرجس"] ("شكرا جزيلا".data) []) :=
  ⟨c1_recommendation_fallback.1 "النرجس" [] ("شكرا جزيلا".data)
      (Except.ok (some [some "العليا"])) [some "العليا"] (by decide),
    c1_recommendation_fallback.2.1 ["النرجس"] ("شكرا جزيلا".data) [] (by decide)⟩

/-! ## C5 and C10: facility search
(services/neighborhood/search.py FacilitySearchService.search_entity)

A data frame is a list of column names and a list of rows; each row is an
association list from column names to optional cell strings (None stands for
NaN; the cells of these CSV tables are modelled as strings).  astype(str)
turns a NaN cell into the literal string nan, which cellStr reproduces.  The
pandas str.contains call treats the cleaned query as a pattern; on the
metacharacter-free Arabic queries of this service that is case-insensitive
substring containment, which is how it is embedded (the spec also describes
the matching as substring-based).  The dictionary search_columns is total
on the five facility files; for an unknown file the source falls back to the
data-frame columns with the first column as name field (None, i.e. falsy,
when there are none: encoded by the empty string, which the same truthiness
test rejects).  The attribute self.available_neighborhoods read by the
neighborhood branch is never assigned in FacilitySearchService.__init__, so
entering that branch raises AttributeError, which the except clause of
search_entity converts into FacilitySearchError: that branch is embedded as
the error outcome. -/

structure SearchSettings where
  search : List String
  display : List String
  nameField : String
  typeName : String
deriving DecidableEq

structure DFrame where
  cols : List String
  rows : List (List (String × Option String))
deriving DecidableEq

inductive SearchErr where
  | facilitySearchError
deriving DecidableEq

/-- Row cell access: None for a missing column or a NaN cell. -/
def cellOf (row : List (String × Option String)) (col : String) : Option String :=
  match row.find? (fun kv => kv.1 == col) with
  | some kv => kv.2
  | none => none

/-- astype(str): NaN prints as the string nan. -/
def cellStr (c : Option String) : String := c.getD "nan"

/-- search.py search_columns: per-file search/display columns, name field and type name. -/
def searchColumnsOf (csvFile : String) : Option SearchSettings :=
  if csvFile == "المدارس.csv" then some ⟨["اسم_المدرسة", "name", "school_name", "المدرسة", "الاسم"],
    ["اسم_المدرسة", "العنوان", "التصنيف", "المرحلة_الدراسية", "نوع_المدرسة", "الاسم"], "الاسم", "مدرسة"⟩
  else if csvFile == "حدائق.csv" then some ⟨["اسم_الحديقة", "name", "park_name", "الحديقة", "الاسم"],
    ["اسم_الحديقة", "العنوان", "المساحة", "المرافق", "الاسم"], "الاسم", "حديقة"⟩
  else if csvFile == "سوبرماركت.csv" then some ⟨["اسم_السوبرماركت", "name", "supermarket_name", "السوبرماركت", "الاسم"],
    ["اسم_السوبرماركت", "العنوان", "ساعات_العمل", "التصنيف", "الاسم"], "الاسم", "سوبرماركت"⟩
  else if csvFile == "مستشفى.csv" then some ⟨["اسم_المستشفى", "name", "hospital_name", "المستشفى", "الاسم"],
    ["اسم_المستشفى", "العنوان", "التخصص", "التصنيف", "الاسم"], "الاسم", "مستشفى"⟩
  else if csvFile == "مول.csv" then some ⟨["اسم_المول", "name", "mall_name", "المول", "الاسم"],
    ["اسم_المول", "العنوان", "عدد_المتاجر", "المطاعم", "الترفيه", "الاسم"], "الاسم", "مول تجاري"⟩
  else none

/-- search.py facility_type_keywords of the short-query replacement in search_entity. -/
def facilityTypeKeywordsOf (csvFile : String) : Option (List String) :=
  if csvFile == "المدارس.csv" then some ["مدرسة", "مدارس"]
  else if csvFile == "مستشفى.csv" then some ["مستشفى", "مستشفيات", "مركز طبي"]
  else if csvFile == "حدائق.csv" then some ["حديقة", "حدائق", "منتزه"]
  else if csvFile == "سوبرماركت.csv" then some ["سوبرماركت", "هايبر", "ماركت", "متجر"]
  else if csvFile == "مول.csv" then some ["مول", "مولات", "مركز تسوق"]
  else none

/-- search.py facility_type_display of the not-found message in search_entity. -/
def facilityTypeDisplayOf (csvFile : String) : Option String :=
  if csvFile == "المدارس.csv" then some "مدرسة"
  else if csvFile == "مستشفى.csv" then some "مستشفى"
  else if csvFile == "حدائق.csv" then some "حديقة"
  else if csvFile == "سوبرماركت.csv" then some "سوبرماركت أو متجر"
  else if csvFile == "مول.csv" then some "مول أو مركز تسوق"
  else none

/-- The default settings for a file without search_columns entry. -/
def settingsFor (csvFile : String) (df : DFrame) : SearchSettings :=
  match searchColumnsOf csvFile with
  | some st => st
  | none => ⟨df.cols, df.cols, df.cols.headD "", "عنصر"⟩

/-- search.py _clean_search_query: strip the leading question phrases,
remove question marks and dots, strip, remove the trailing location
phrases; a result shorter than two characters gives back the original. -/
def cleanSearchQuery (query : List Char) : List Char :=
  let c1 := questionPatterns.foldl (fun acc bp => resubDel bp.1 bp.2 acc) query
  let c2 := pyStrip (pyReplace ['.'] [] (pyReplace ['?'] [] (pyReplace ['؟'] [] c1)))
  let c3 := endPhrases.foldl (fun acc bp => resubDel bp.1 bp.2 acc) c2
  if c3.length < 2 then query else pyStrip c3

/-- The neighborhood-recommendation guard at the top of search_entity. -/
def isRecommendationRequest (q : List Char) : Bool :=
  (isSubL ("دلني على حي".data) q || isSubL ("اقترح لي حي".data) q
      || isSubL ("أقترح لي حي".data) q)
    && (isSubL ("فيه مدارس".data) q || isSubL ("به مدارس".data) q
      || isSubL ("فيها مدارس".data) q || isSubL ("يوجد فيه مدارس".data) q
      || isSubL ("توجد فيه مدارس".data) q || isSubL ("قريب من".data) q
      || isSubL ("قريبة من".data) q)

/-- The short-query replacement: a cleaned query shorter than three
characters is replaced by the first type keyword of the file. -/
def effectiveQuery (csvFile : String) (cleanQuery : List Char) : List Char :=
  if cleanQuery.length < 3 ∧ csvFile ≠ "" then
    match facilityTypeKeywordsOf csvFile with
    | some ks => (ks.headD "").data
    | none => cleanQuery
  else cleanQuery

/-- Column shown name: underscores to spaces, the word for name removed,
stripped. -/
def displayNameOf (col : String) : String :=
  String.mk (pyStrip (pyReplace ("اسم".data) [] (pyReplace ['_'] [' '] col.data)))

/-- search.py _format_search_result for string-valued cells: the name field
first, then the nonempty displayed cells as name-colon-value parts. -/
def formatSearchResult (row : List (String × Option String)) (displayCols : List String)
    (nameField : String) : String :=
  let parts :=
    (if nameField ≠ "" then
      match cellOf row nameField with
      | some v => [v]
      | none => []
    else []) ++
    (displayCols.filterMap (fun col =>
      if col == nameField then none
      else match cellOf row col with
        | some v => if v ≠ "" then some (displayNameOf col ++ ": " ++ v) else none
        | none => none))
  if parts.isEmpty then "معلومات غير متوفرة" else String.intercalate " | " parts

/-- The dedup append of the result loops: a formatted result already present
is not appended again. -/
def appendIfNew (results : List String) (r : String) : List String :=
  if results.contains r then results else results ++ [r]

/-- Append all formatted rows to an accumulator with dedup. -/
def appendRows (st : SearchSettings) (acc : List String)
    (rows : List (List (String × Option String))) : List String :=
  rows.foldl (fun a row => appendIfNew a (formatSearchResult row st.display st.nameField)) acc

/-- Stage one of search_entity: case-insensitive containment on the name
field, augmented by normalized containment when fewer than three results. -/
def nameStageResults (df : DFrame) (st : SearchSettings) (clean : List Char) : List String :=
  if df.cols.contains st.nameField then
    let r1 := appendRows st []
      (df.rows.filter (fun row => containsCI (cellStr (cellOf row st.nameField)).data clean))
    if r1.length < 3 then
      appendRows st r1 (df.rows.filter (fun row =>
        match cellOf row st.nameField with
        | some v => isSubL (fsNormalizeArabicText clean) (fsNormalizeArabicText v.data)
        | none => false))
    else r1
  else []

/-- Stage two: containment over all configured search columns, normalized
containment when that yields nothing. -/
def multiFieldStage (df : DFrame) (st : SearchSettings) (clean : List Char) : List String :=
  let a := st.search.foldl (fun acc col =>
    if df.cols.contains col then
      appendRows st acc
        (df.rows.filter (fun row => containsCI (cellStr (cellOf row col)).data clean))
    else acc) []
  if a.isEmpty then
    st.search.foldl (fun acc col =>
      if df.cols.contains col then
        appendRows st acc (df.rows.filter (fun row =>
          match cellOf row col with
          | some v => isSubL (fsNormalizeArabicText clean) (fsNormalizeArabicText v.data)
          | none => false))
      else acc) []
  else a

/-- Stage three: per-keyword containment over the search columns, for
keywords of at least three characters. -/
def keywordStage (df : DFrame) (st : SearchSettings) (clean : List Char) : List String :=
  (pySplitWs clean).foldl (fun acc kw =>
    if 3 ≤ kw.length then
      st.search.foldl (fun acc2 col =>
        if df.cols.contains col then
          appendRows st acc2
            (df.rows.filter (fun row => containsCI (cellStr (cellOf row col)).data kw))
        else acc2) acc
    else acc) []

/-- Question detection used by the result formatting. -/
def isQuestionQuery (q : List Char) : Bool :=
  ["اين", "أين", "كيف", "ما", "هل"].any (fun w => isSubL w.data q)

/-- The not-found messages of search_entity. -/
def notFoundMessage (csvFile : String) (typeName : String)
    (searchQuery clean : List Char) : String :=
  let displayType := (facilityTypeDisplayOf csvFile).getD typeName
  if isQuestionQuery searchQuery then
    "عذراً، لم أتمكن من العثور على " ++ displayType ++ " باسم '" ++ String.mk clean
      ++ "' في قاعدة البيانات."
  else
    "لم يتم العثور على " ++ displayType ++ " باسم '" ++ String.mk clean
      ++ "' في قاعدة البيانات."

/-- The final formatting of a nonempty result list: single result plain or
prefixed for questions, several results numbered and truncated to five. -/
def formatResultsMessage (typeName : String) (searchQuery : List Char)
    (results : List String) : String :=
  if results.length == 1 then
    if isQuestionQuery searchQuery then "وجدت " ++ typeName ++ ": " ++ results.headD ""
    else results.headD ""
  else
    let truncated := 5 < results.length
    let shown := if truncated then results.take 5 else results
    let t1 := "وجدت " ++ Nat.repr shown.length ++ " من " ++ typeName ++ " تطابق بحثك"
    let t2 := if truncated then
        t1 ++ " (عرض أول 5 نتائج من أصل " ++ Nat.repr shown.length ++ ")"
      else t1
    let t3 := (List.enumFrom 1 shown).foldl
      (fun acc iv => acc ++ Nat.repr iv.1 ++ ". " ++ iv.2 ++ "\n") (t2 ++ ":\n")
    if truncated then
      t3 ++ "\nلعرض المزيد من النتائج، يرجى تحديد عبارة بحث أكثر دقة."
    else t3

/-- The sequential accumulation of the three widening stages of
search_entity: the multi-field stage runs only when the name stage produced
nothing, the keyword stage only when both earlier stages produced nothing
and the cleaned query has several tokens. -/
def stagedResults (df : DFrame) (st : SearchSettings) (clean : List Char) : List String :=
  let r1 := nameStageResults df st clean
  let r2 := if r1.isEmpty then multiFieldStage df st clean else r1
  if r2.isEmpty ∧ 1 < (pySplitWs clean).length then keywordStage df st clean else r2

/-- The tail of search_entity after the stages: the neighborhood branch that
raises FacilitySearchError through the missing attribute when nothing was
found and the cleaned query mentions a neighborhood, the not-found messages,
and the result formatting. -/
def finalAssembly (csvFile : String) (st : SearchSettings) (searchQuery clean : List Char)
    (results : List String) : Except SearchErr String :=
  if results.isEmpty ∧ isSubL ("حي".data) clean then
    Except.error SearchErr.facilitySearchError
  else if results.isEmpty then
    Except.ok (notFoundMessage csvFile st.typeName searchQuery clean)
  else Except.ok (formatResultsMessage st.typeName searchQuery results)

/-- FacilitySearchService.search_entity over the csv mapping: the
recommendation guard, the missing-file and empty-file messages, then the
widening stages and the final assembly. -/
def searchEntity (mappings : List (String × DFrame)) (csvFile : String)
    (searchQuery : List Char) : Except SearchErr String :=
  if isRecommendationRequest searchQuery then Except.ok "طلب_توصية_حي"
  else
    match mappings.find? (fun kv => kv.1 == csvFile) with
    | none => Except.ok ("عذراً، ملف البيانات '" ++ csvFile ++ "' غير متوفر.")
    | some kv =>
      if kv.2.rows.isEmpty then
        Except.ok ("عذراً، لا توجد بيانات في ملف '" ++ csvFile ++ "'.")
      else
        finalAssembly csvFile (settingsFor csvFile kv.2) searchQuery
          (effectiveQuery csvFile (cleanSearchQuery searchQuery))
          (stagedResults kv.2 (settingsFor csvFile kv.2)
            (effectiveQuery csvFile (cleanSearchQuery searchQuery)))

theorem appendIfNew_ne_nil {acc : List String} (r : String) (h : acc ≠ []) :
    appendIfNew acc r ≠ [] := by
  unfold appendIfNew
  by_cases hc : acc.contains r = true
  · rw [if_pos hc]; exact h
  · rw [if_neg hc]; simp

theorem appendIfNew_nil (r : String) : appendIfNew [] r = [r] := by
  unfold appendIfNew
  simp [List.contains]

theorem appendRows_ne_nil (st : SearchSettings) {acc : List String}
    (rows : List (List (String × Option String))) (h : acc ≠ []) :
    appendRows st acc rows ≠ [] := by
  induction rows generalizing acc with
  | nil => exact h
  | cons row rest ih =>
    unfold appendRows
    simp only [List.foldl_cons]
    exact ih (appendIfNew_ne_nil _ h)

theorem appendRows_cons_ne_nil (st : SearchSettings)
    (row : List (String × Option String)) (rest : List (List (String × Option String))) :
    appendRows st [] (row :: rest) ≠ [] := by
  unfold appendRows
  simp only [List.foldl_cons]
  have h1 : appendIfNew [] (formatSearchResult row st.display st.nameField) ≠ [] := by
    rw [appendIfNew_nil]; simp
  exact appendRows_ne_nil st rest h1

theorem nameStage_ne_nil {df : DFrame} {st : SearchSettings} {clean : List Char}
    {row : List (String × Option String)}
    (hcol : df.cols.contains st.nameField = true) (hrow : row ∈ df.rows)
    (hmatch : containsCI (cellStr (cellOf row st.nameField)).data clean = true) :
    nameStageResults df st clean ≠ [] := by
  unfold nameStageResults
  rw [if_pos hcol]
  have hfilter : df.rows.filter
      (fun row => containsCI (cellStr (cellOf row st.nameField)).data clean) ≠ [] :=
    List.ne_nil_of_mem (List.mem_filter.mpr ⟨hrow, hmatch⟩)
  obtain ⟨y, ys, hys⟩ := List.exists_cons_of_ne_nil hfilter
  rw [hys]
  have hr1 : appendRows st [] (y :: ys) ≠ [] := appendRows_cons_ne_nil st y ys
  by_cases hlen : (appendRows st [] (y :: ys)).length < 3
  · rw [if_pos hlen]
    exact appendRows_ne_nil st _ hr1
  · rw [if_neg hlen]
    exact hr1

theorem list_isEmpty_false_of_ne_nil {l : List String} (h : l ≠ []) : l.isEmpty = false := by
  cases l with
  | nil => exact absurd rfl h
  | cons a b => rfl

theorem stagedResults_stage1 {df : DFrame} {st : SearchSettings} {clean : List Char}
    (h1 : nameStageResults df st clean ≠ []) :
    stagedResults df st clean = nameStageResults df st clean := by
  have e2 : (if (nameStageResults df st clean).isEmpty = true then multiFieldStage df st clean
      else nameStageResults df st clean) = nameStageResults df st clean :=
    if_neg (by simp [list_isEmpty_false_of_ne_nil h1])
  unfold stagedResults
  simp only []
  rw [e2]
  rw [if_neg (by simp [list_isEmpty_false_of_ne_nil h1])]

theorem stagedResults_stage2 {df : DFrame} {st : SearchSettings} {clean : List Char}
    (h1 : nameStageResults df st clean = [])
    (h2 : multiFieldStage df st clean ≠ []) :
    stagedResults df st clean = multiFieldStage df st clean := by
  have e2 : (if (nameStageResults df st clean).isEmpty = true then multiFieldStage df st clean
      else nameStageResults df st clean) = multiFieldStage df st clean :=
    if_pos (by simp [h1])
  unfold stagedResults
  simp only []
  rw [e2]
  rw [if_neg (by simp [list_isEmpty_false_of_ne_nil h2])]

theorem stagedResults_stage3 {df : DFrame} {st : SearchSettings} {clean : List Char}
    (h1 : nameStageResults df st clean = [])
    (h2 : multiFieldStage df st clean = [])
    (h3 : 1 < (pySplitWs clean).length) :
    stagedResults df st clean = keywordStage df st clean := by
  have e2 : (if (nameStageResults df st clean).isEmpty = true then multiFieldStage df st clean
      else nameStageResults df st clean) = multiFieldStage df st clean :=
    if_pos (by simp [h1])
  unfold stagedResults
  simp only []
  rw [e2]
  rw [if_pos ⟨by simp [h2], h3⟩]

theorem stagedResults_empty {df : DFrame} {st : SearchSettings} {clean : List Char}
    (h1 : nameStageResults df st clean = [])
    (h2 : multiFieldStage df st clean = [])
    (h3 : keywordStage df st clean = []) :
    stagedResults df st clean = [] := by
  have e2 : (if (nameStageResults df st clean).isEmpty = true then multiFieldStage df st clean
      else nameStageResults df st clean) = multiFieldStage df st clean :=
    if_pos (by simp [h1])
  unfold stagedResults
  simp only []
  rw [e2]
  by_cases hc : (multiFieldStage df st clean).isEmpty = true ∧ 1 < (pySplitWs clean).length
  · rw [if_pos hc]; exact h3
  · rw [if_neg hc]; exact h2

theorem finalAssembly_found {csvFile : String} {st : SearchSettings}
    {searchQuery clean : List Char} {results : List String} (h : results ≠ []) :
    finalAssembly csvFile st searchQuery clean results
      = Except.ok (formatResultsMessage st.typeName searchQuery results) := by
  unfold finalAssembly
  rw [if_neg (by simp [list_isEmpty_false_of_ne_nil h])]
  rw [if_neg (by simp [list_isEmpty_false_of_ne_nil h])]

theorem finalAssembly_err {csvFile : String} {st : SearchSettings}
    {searchQuery clean : List Char} (hw : isSubL ("حي".data) clean = true) :
    finalAssembly csvFile st searchQuery clean []
      = Except.error SearchErr.facilitySearchError := by
  unfold finalAssembly
  rw [if_pos ⟨rfl, hw⟩]

theorem searchEntity_body {mappings : List (String × DFrame)} {csvFile : String}
    {query : List Char} {df : DFrame}
    (hfind : mappings.find? (fun kv => kv.1 == csvFile) = some (csvFile, df))
    (hrec : isRecommendationRequest query = false)
    (hrows : df.rows.isEmpty = false) :
    searchEntity mappings csvFile query
      = finalAssembly csvFile (settingsFor csvFile df) query
          (effectiveQuery csvFile (cleanSearchQuery query))
          (stagedResults df (settingsFor csvFile df)
            (effectiveQuery csvFile (cleanSearchQuery query))) := by
  unfold searchEntity
  rw [if_neg (by simp [hrec])]
  simp only [hfind]
  rw [if_neg (by simp [hrows])]

/-- C5: search_entity tries its stages in strict widening order and stops at
the first stage with results: when the name stage finds anything, its
results are formatted and returned and the later stages are never consulted;
the multi-field stage answers only when the name stage is empty, the
keyword stage only when both earlier stages are empty and the query has
several tokens; and a name-field substring match always makes the name stage
nonempty. -/
theorem c5_search_widening :
    (∀ (mappings : List (String × DFrame)) (csvFile : String) (query : List Char)
        (df : DFrame),
      mappings.find? (fun kv => kv.1 == csvFile) = some (csvFile, df) →
      isRecommendationRequest query = false →
      df.rows.isEmpty = false →
      ((nameStageResults df (settingsFor csvFile df)
            (effectiveQuery csvFile (cleanSearchQuery query)) ≠ [] →
        searchEntity mappings csvFile query
          = Except.ok (formatResultsMessage (settingsFor csvFile df).typeName query
              (nameStageResults df (settingsFor csvFile df)
                (effectiveQuery csvFile (cleanSearchQuery query))))) ∧
       (nameStageResults df (settingsFor csvFile df)
            (effectiveQuery csvFile (cleanSearchQuery query)) = [] →
        multiFieldStage df (settingsFor csvFile df)
            (effectiveQuery csvFile (cleanSearchQuery query)) ≠ [] →
        searchEntity mappings csvFile query
          = Except.ok (formatResultsMessage (settingsFor csvFile df).typeName query
              (multiFieldStage df (settingsFor csvFile df)
                (effectiveQuery csvFile (cleanSearchQuery query))))) ∧
       (nameStageResults df (settingsFor csvFile df)
            (effectiveQuery csvFile (cleanSearchQuery query)) = [] →
        multiFieldStage df (settingsFor csvFile df)
            (effectiveQuery csvFile (cleanSearchQuery query)) = [] →
        1 < (pySplitWs (effectiveQuery csvFile (cleanSearchQuery query))).length →
        keywordStage df (settingsFor csvFile df)
            (effectiveQuery csvFile (cleanSearchQuery query)) ≠ [] →
        searchEntity mappings csvFile query
          = Except.ok (formatResultsMessage (settingsFor csvFile df).typeName query
              (keywordStage df (settingsFor csvFile df)
                (effectiveQuery csvFile (cleanSearchQuery query))))))) ∧
    (∀ (df : DFrame) (st : SearchSettings) (clean : List Char)
        (row : List (String × Option String)),
      df.cols.contains st.nameField = true → row ∈ df.rows →
      containsCI (cellStr (cellOf row st.nameField)).data clean = true →
      nameStageResults df st clean ≠ []) := by
  constructor
  · intro mappings csvFile query df hfind hrec hrows
    refine ⟨?_, ?_, ?_⟩
    · intro h1
      rw [searchEntity_body hfind hrec hrows, stagedResults_stage1 h1,
        finalAssembly_found h1]
    · intro h1 h2
      rw [searchEntity_body hfind hrec hrows, stagedResults_stage2 h1 h2,
        finalAssembly_found h2]
    · intro h1 h2 h3 h4
      rw [searchEntity_body hfind hrec hrows, stagedResults_stage3 h1 h2 h3,
        finalAssembly_found h4]
  · intro df st clean row hcol hrow hmatch
    exact nameStage_ne_nil hcol hrow hmatch

/-- The one-row table used to instantiate the search theorems. -/
def c5DF : DFrame := ⟨["الاسم"], [[("الاسم", some "مدرسة النور الابتدائية")]]⟩

/-- C5 witness: the name-stage clause of c5_search_widening at a concrete
table and query. -/
theorem c5_witness :
    searchEntity [("المدارس.csv", c5DF)] "المدارس.csv" ("اين توجد مدرسة النور؟".data)
      = Except.ok "وجدت مدرسة: مدرسة النور الابتدائية" := by
  rw [(c5_search_widening.1 [("المدارس.csv", c5DF)] "المدارس.csv"
      ("اين توجد مدرسة النور؟".data) c5DF (by decide) (by decide) (by decide)).1
    (by decide)]
  decide

/-- The one-row table whose single name matches none of the query words,
used to reach the neighborhood-suggestion branch of search_entity. -/
def c10DF : DFrame := ⟨["الاسم"], [[("الاسم", some "تجربة")]]⟩

/-- C10: when the name-field, multi-field and keyword stages all come back
empty and the cleaned query contains the word "حي", search_entity enters the
suggestion branch that reads the undefined attribute available_neighborhoods,
so the call surfaces FacilitySearchError instead of the not-found message;
this branch is reachable at the public interface, witnessed by a concrete
mapping and query. -/
theorem c10_attribute_error_branch :
    (∀ (mappings : List (String × DFrame)) (csvFile : String) (query : List Char)
        (df : DFrame),
      mappings.find? (fun kv => kv.1 == csvFile) = some (csvFile, df) →
      isRecommendationRequest query = false →
      df.rows.isEmpty = false →
      nameStageResults df (settingsFor csvFile df)
          (effectiveQuery csvFile (cleanSearchQuery query)) = [] →
      multiFieldStage df (settingsFor csvFile df)
          (effectiveQuery csvFile (cleanSearchQuery query)) = [] →
      keywordStage df (settingsFor csvFile df)
          (effectiveQuery csvFile (cleanSearchQuery query)) = [] →
      isSubL ("حي".data) (effectiveQuery csvFile (cleanSearchQuery query)) = true →
      searchEntity mappings csvFile query
        = Except.error SearchErr.facilitySearchError) ∧
    (∃ (mappings : List (String × DFrame)) (csvFile : String) (query : List Char),
      searchEntity mappings csvFile query
        = Except.error SearchErr.facilitySearchError) := by
  constructor
  · intro mappings csvFile query df hfind hrec hrows h1 h2 h3 hw
    rw [searchEntity_body hfind hrec hrows, stagedResults_empty h1 h2 h3]
    exact finalAssembly_err hw
  · exact ⟨[("المدارس.csv", c10DF)], "المدارس.csv", ("مدرسة حي النخيل".data),
      by decide⟩

/-- C10 witness: the concrete one-row table and query reach the error
branch through the universally quantified part of the theorem. -/
theorem c10_witness :
    searchEntity [("المدارس.csv", c10DF)] "المدارس.csv" ("مدرسة حي النخيل".data)
      = Except.error SearchErr.facilitySearchError :=
  c10_attribute_error_branch.1 [("المدارس.csv", c10DF)] "المدارس.csv"
    ("مدرسة حي النخيل".data) c10DF (by decide) (by decide) (by decide)
    (by decide) (by decide) (by decide) (by decide)
